import Mathlib

/-!
Verification development for the sitee audit pipeline.

This file shallowly embeds the core of the repository:
  * `backend/app/services/scraper.py` — crawl controller, safety gate,
    robots.txt policy check, homepage fetch, frontier loop, dedup store;
  * `backend/app/services/evidence_extractor.py` — deterministic evidence
    layer (page blocks, company profile, evidence items);
  * `backend/app/services/llm_auditor.py` — the deterministic Stage-A
    post-processing of `decision_readiness_audit` / `decision_coverage_score`
    and the deterministic QA gate `_qa_validate_and_fix`.

Library primitives that the Python code calls (SHA-256 of `hashlib`,
BeautifulSoup HTML parsing, the `re` regex engine, the HTTP client) are
modelled as opaque pure parameters; everything the repository itself
computes is translated directly from the source.  Machine integers do not
overflow in any of the modelled code paths (all counters are small), so
`Nat`/`Int`/`Rat` are used directly.
-/

namespace Sitee

/-! ## Python string helpers (shared by scraper and evidence extractor)

The corresponding Lean core functions are implemented by well-founded
recursion, which the kernel cannot evaluate, so the primitives below are
(structurally recursive) reimplementations; `lowerChar` covers the ASCII
range, which is all the modelled strings use. -/

/-- ASCII `str.lower` on one character. -/
def lowerChar (c : Char) : Char :=
  if 65 ≤ c.toNat ∧ c.toNat ≤ 90 then Char.ofNat (c.toNat + 32) else c

/-- Python `str.lower` (ASCII range). -/
def pyLower (s : String) : String := (s.toList.map lowerChar).asString

/-- Split on a single separator character (Python `str.split(sep)`). -/
def splitChar (sep : Char) : List Char → List (List Char)
  | [] => [[]]
  | c :: cs =>
    match splitChar sep cs with
    | [] => if c = sep then [[], []] else [[c]]
    | g :: gs => if c = sep then [] :: g :: gs else (c :: g) :: gs

def splitOnChar (s : String) (sep : Char) : List String :=
  (splitChar sep s.toList).map List.asString

/-- Split on a character predicate, keeping empty segments. -/
def splitPred (p : Char → Bool) : List Char → List (List Char)
  | [] => [[]]
  | c :: cs =>
    match splitPred p cs with
    | [] => if p c then [[], []] else [[c]]
    | g :: gs => if p c then [] :: g :: gs else (c :: g) :: gs

/-- Python `str.strip()`. -/
def pyStrip (s : String) : String :=
  (((s.toList.dropWhile Char.isWhitespace).reverse.dropWhile
      Char.isWhitespace).reverse).asString

/-- Left-to-right, non-overlapping replacement (Python `str.replace`),
with fuel bounded by the input length. -/
def replaceFuel (pat repl : List Char) : Nat → List Char → List Char
  | 0, cs => cs
  | _, [] => []
  | fuel + 1, c :: cs =>
    if (c :: cs).take pat.length = pat then
      repl ++ replaceFuel pat repl fuel ((c :: cs).drop pat.length)
    else c :: replaceFuel pat repl fuel cs

def pyReplace (s pat repl : String) : String :=
  (replaceFuel pat.toList repl.toList s.toList.length s.toList).asString

/-- Decimal digit value. -/
def digitVal (c : Char) : Option Nat :=
  if 48 ≤ c.toNat ∧ c.toNat ≤ 57 then some (c.toNat - 48) else none

def digitsToNat : List Char → Option Nat → Option Nat
  | [], acc => acc
  | c :: cs, acc =>
    match digitVal c, acc with
    | some d, some a => digitsToNat cs (some (a * 10 + d))
    | some d, none => digitsToNat cs (some d)
    | none, _ => none

/-- All-decimal string to `Nat` (the digit-only fragment of `int(...)`). -/
def strToNat? (s : String) : Option Nat :=
  if s.toList = [] then none else digitsToNat s.toList none

/-- Character index of the first occurrence of `pat` in `s`
(Python `str.find`, with `none` for `-1`). -/
def findIdx? (s pat : String) : Option Nat :=
  let cs := s.toList
  let ps := pat.toList
  (List.range (cs.length + 1)).find? (fun i => (cs.drop i).take ps.length = ps)

/-- Python `pat in s`. -/
def containsSub (s pat : String) : Bool :=
  (findIdx? s pat).isSome

/-- Model of `_norm_ws` of `evidence_extractor.py`: strip the ends and collapse every
whitespace run to a single space (`_WS_RE.sub(" ", s.strip())`). -/
def normWs (s : String) : String :=
  String.intercalate " "
    (((splitPred Char.isWhitespace s.toList).map List.asString).filter
      (fun w => w ≠ ""))

/-- Python `str.rstrip(".")`: drop trailing dots. -/
def dropTrailingDots (s : String) : String :=
  ((s.toList.reverse.dropWhile (fun c => c = '.')).reverse).asString

/-- Python `str.rstrip()`: drop trailing whitespace. -/
def dropTrailingWs (s : String) : String :=
  ((s.toList.reverse.dropWhile Char.isWhitespace).reverse).asString

/-- Python `str.rstrip("/")`: drop trailing slashes. -/
def rstripSlashes (s : String) : String :=
  ((s.toList.reverse.dropWhile (fun c => c = '/')).reverse).asString

/-- Python `str.strip("/")`: drop leading and trailing slashes. -/
def stripSlashes (s : String) : String :=
  (((s.toList.dropWhile (fun c => c = '/')).reverse.dropWhile
      (fun c => c = '/')).reverse).asString

/-- Python truthiness of a string followed by `or b`: `a or b`. -/
def pyOrStr (a b : String) : String :=
  if a = "" then b else a

/-- Model of `_truncate` of `evidence_extractor.py`. -/
def pyTruncate (s : String) (maxLen : Nat) : String :=
  let t := normWs s
  if t.length ≤ maxLen then t
  else dropTrailingWs (t.take (maxLen - 1)) ++ "…"

/-- Model of `_dedupe_keep_order` of `evidence_extractor.py`: whitespace-normalise each
entry, drop empties, and keep the first occurrence of each lowercase key. -/
def dedupeGo (seen : List String) : List String → List String
  | [] => []
  | x :: xs =>
    let t := normWs x
    if t = "" then dedupeGo seen xs
    else if pyLower t ∈ seen then dedupeGo seen xs
    else t :: dedupeGo (pyLower t :: seen) xs

def dedupeKeepOrder (items : List String) : List String :=
  dedupeGo [] items

/-- Python slice `s[a:b]` by character positions. -/
def slice (s : String) (a b : Nat) : String :=
  (((s.toList).drop a).take (b - a)).asString

/-- Stable insertion sort: a later element is placed after earlier elements
with an equal key (Python `sorted` is stable). `lt` must be a strict order. -/
def stableInsert (lt : α → α → Bool) (x : α) : List α → List α
  | [] => [x]
  | y :: ys => if lt x y then x :: y :: ys else y :: stableInsert lt x ys

def stableSort (lt : α → α → Bool) (xs : List α) : List α :=
  xs.foldl (fun acc x => stableInsert lt x acc) []

/-- Python `len(text.split())`: number of whitespace-separated words. -/
def pyWordCount (s : String) : Nat :=
  (((splitPred Char.isWhitespace s.toList).map List.asString).filter
    (fun w => w ≠ "")).length

/-! ## Scraper model (`backend/app/services/scraper.py`)

URLs are modelled structurally (the components that `urllib.parse.urlparse`
produces), since the claims never depend on raw URL-string parsing. -/

structure Url where
  scheme : String
  netloc : String
  path : String
  qparams : String
  query : String
  fragment : String
deriving DecidableEq, Repr

/-- Rough inverse of `urlparse`, used where the Python code treats the URL as
one string (keyword search in `identify_page_priority`). -/
def urlToStr (u : Url) : String :=
  u.scheme ++ "://" ++ u.netloc ++ u.path
    ++ (if u.qparams = "" then "" else ";" ++ u.qparams)
    ++ (if u.query = "" then "" else "?" ++ u.query)
    ++ (if u.fragment = "" then "" else "#" ++ u.fragment)

/-- Model of `WebScraper.normalize_url`: scheme http→https, lowercase host, strip the
trailing slash of the path (empty path becomes "/"), drop the fragment. -/
def normalize_url (u : Url) : Url :=
  { scheme := if u.scheme = "http" then "https" else u.scheme
    netloc := pyLower u.netloc
    path := pyOrStr (rstripSlashes u.path) "/"
    qparams := u.qparams
    query := u.query
    fragment := "" }

/-- Model of `WebScraper.get_url_hash` is `sha256(normalize_url(url))`; SHA-256 is a
library primitive, modelled as the opaque parameter `hashHex`. -/
def get_url_hash (hashHex : Url → String) (u : Url) : String :=
  hashHex (normalize_url u)

/-- Dotted-quad IPv4 parser (stand-in for `ipaddress.ip_address` on the
hostnames the claims exercise; textual IPv6 forms other than the literal
"::1" are outside the modelled code paths). -/
def parseIPv4 (s : String) : Option (Nat × Nat × Nat × Nat) :=
  match (splitOnChar s '.').map strToNat? with
  | [some a, some b, some c, some d] =>
    if a ≤ 255 ∧ b ≤ 255 ∧ c ≤ 255 ∧ d ≤ 255 then some (a, b, c, d) else none
  | _ => none

/-- The private/loopback/link-local ranges of `SSRFProtection.PRIVATE_IP_RANGES`
restricted to IPv4. -/
def isPrivateV4 (ip : Nat × Nat × Nat × Nat) : Bool :=
  let (a, b, _, _) := ip
  a = 10 ∨ (a = 172 ∧ 16 ≤ b ∧ b ≤ 31) ∨ (a = 192 ∧ b = 168) ∨ a = 127
    ∨ (a = 169 ∧ b = 254)

/-- Model of `SSRFProtection.is_safe_url`: http(s) scheme only, no localhost aliases,
no private IPv4 literals. -/
def is_safe_url (u : Url) : Bool :=
  (u.scheme = "http" ∨ u.scheme = "https") &&
  (let host := pyLower u.netloc
   ¬ (host = "localhost" ∨ host = "127.0.0.1" ∨ host = "::1") &&
   (match parseIPv4 host with
    | some ip => ¬ isPrivateV4 ip
    | none => true))

/-- Model of `WebScraper.identify_page_priority`. -/
def identify_page_priority (u : Url) : Nat :=
  let urlLower := pyLower (urlToStr u)
  let path := rstripSlashes (pyLower u.path)
  if path = "" ∨ path = "/" then 0
  else if (["about", "pricing", "price", "services", "products", "solutions",
            "case-stud", "portfolio", "customers", "testimonial",
            "reviews"]).any (fun k => containsSub urlLower k) then 1
  else if (["faq", "contact", "blog", "features", "resources", "how-it-works",
            "use-case", "industries", "team"]).any
            (fun k => containsSub urlLower k) then 2
  else 3

/-- Model of `ScrapeDebug.robots_txt_status` is an int status or the string "error". -/
inductive RobotsStatus where
  | code (n : Nat)
  | fetchError
deriving DecidableEq, Repr

/-- The fields of `ScrapeDebug` that the modelled code reads or writes
(the wall-clock `timings` are dropped: real time is outside the embedding). -/
structure ScrapeDebug where
  inputUrl : String
  normalizedUrl : Option String := none
  finalUrl : Option Url := none
  homepageStatusCode : Option Nat := none
  homepageFetchError : Option String := none
  robotsTxtStatus : Option RobotsStatus := none
  robotsDisallowsAll : Bool := false
  sitemapFound : Bool := false
  sitemapUrlsCount : Nat := 0
  linksExtractedFromHomepage : Nat := 0
  blockedReason : Option String := none
  pagesAttempted : Nat := 0
  pagesSuccess : Nat := 0
  pagesFailed : Nat := 0
  errors : List String := []
deriving DecidableEq, Repr

/-- Inner scan of `WebScraper.check_robots`: some line holding
"user-agent: *" is followed, within the next four lines, by a line that
contains "disallow: /" and strips to exactly "disallow: /". -/
def robotsScan (lines : List String) : Bool :=
  (List.range lines.length).any (fun i =>
    match lines.get? i with
    | some li =>
      containsSub li "user-agent: *" &&
      ((List.range lines.length).any (fun j =>
        i + 1 ≤ j && j < min (i + 5) lines.length &&
        (match lines.get? j with
         | some lj => containsSub lj "disallow: /" && pyStrip lj = "disallow: /"
         | none => false)))
    | none => false)

/-- The full blanket-disallow detection of `check_robots` on a 200 body. -/
def robotsDisallowsAllContent (content : String) : Bool :=
  let c := pyLower content
  containsSub c "disallow: /" && containsSub c "user-agent: *" &&
    robotsScan (splitOnChar c '\n')

/-- The robots.txt retrieval outcome: `none` models a transport exception. -/
def RobotsResp := Option (Nat × String)

/-- Model of `WebScraper.check_robots`: returns (allowed, updated debug). -/
def check_robots (resp : RobotsResp) (d : ScrapeDebug) : Bool × ScrapeDebug :=
  match resp with
  | none =>
    (true, { d with robotsTxtStatus := some RobotsStatus.fetchError
                    errors := d.errors ++ ["robots.txt: exception"] })
  | some (st, content) =>
    let d := { d with robotsTxtStatus := some (RobotsStatus.code st) }
    if st = 200 ∧ robotsDisallowsAllContent content then
      (false, { d with robotsDisallowsAll := true })
    else (true, d)

/-- What the network and BeautifulSoup produced for one fetched URL.  On a
response the HTML-derived fields (`text`, `title`, `meta`) are oracle data:
the repository obtains them through BeautifulSoup, a library primitive. -/
inductive FetchEvent where
  | resp (status : Nat) (contentType : String) (contentLen : Nat)
      (html text title meta : String) (finalUrl : Url)
  | timeoutExc (msg : String)
  | connectExc (msg : String)
  | otherExc (msg : String)

/-- The tuple `fetch_page` returns on success. -/
structure FetchOk where
  html : String
  text : String
  title : String
  meta : String
  status : Nat
deriving DecidableEq, Repr

/-- Model of `WebScraper.fetch_page` (the 15 s homepage timeout versus
`settings.request_timeout` only affects wall-clock time, not the modelled
outcome, which the event already carries). -/
def fetch_page (u : Url) (ev : FetchEvent) (isHomepage : Bool)
    (d : ScrapeDebug) : Option FetchOk × ScrapeDebug :=
  if ¬ is_safe_url u then
    (none, { d with errors := d.errors ++ ["SSRF blocked: " ++ (urlToStr u).take 50] })
  else
    let d := { d with pagesAttempted := d.pagesAttempted + 1 }
    match ev with
    | FetchEvent.resp st ct len html text title meta fin =>
      let d := if isHomepage then
          { d with homepageStatusCode := some st, finalUrl := some fin }
        else d
      if st = 403 ∨ st = 406 ∨ st = 429 ∨ st = 503 then
        let d := if isHomepage then
            { d with blockedReason := some "403_waf"
                     homepageFetchError := some ("HTTP " ++ toString st) }
          else d
        (none, { d with pagesFailed := d.pagesFailed + 1 })
      else if 400 ≤ st then
        (none, { d with pagesFailed := d.pagesFailed + 1 })
      else if ¬ containsSub (pyLower ct) "text/html" then
        (none, d)
      else if 5 * 1024 * 1024 < len then
        (none, { d with errors := d.errors ++
          ["Page too large: " ++ (urlToStr u).take 50 ++ " (" ++ toString len ++ " bytes)"] })
      else
        (some ⟨html, text, title, meta, st⟩,
         { d with pagesSuccess := d.pagesSuccess + 1 })
    | FetchEvent.timeoutExc msg =>
      let d := if isHomepage then
          { d with blockedReason := some "timeout"
                   homepageFetchError := some ("Timeout: " ++ msg.take 50) }
        else d
      (none, { d with pagesFailed := d.pagesFailed + 1
                      errors := d.errors ++ ["Timeout: " ++ (urlToStr u).take 50] })
    | FetchEvent.connectExc msg =>
      let es := pyLower msg
      let reason :=
        if containsSub es "ssl" ∨ containsSub es "certificate" then "ssl"
        else if containsSub es "dns" ∨ containsSub es "name" then "dns"
        else "connection"
      let d := if isHomepage then
          { d with blockedReason := some reason,
                   homepageFetchError := some (msg.take 100) }
        else d
      (none, { d with pagesFailed := d.pagesFailed + 1
                      errors := d.errors ++ ["Connect error: " ++ msg.take 50] })
    | FetchEvent.otherExc msg =>
      let d := if isHomepage then
          { d with blockedReason := some "unknown"
                   homepageFetchError := some (msg.take 100) }
        else d
      (none, { d with pagesFailed := d.pagesFailed + 1
                      errors := d.errors ++ ["Error: " ++ msg.take 50] })

/-- One row of the `scraped_pages` table (`models.ScrapedPage`), restricted to
the columns the scraper writes; `url_hash` carries the global
`unique=True` constraint. -/
structure StoredPage where
  auditJobId : String
  url : Url
  domain : String
  isTarget : Bool
  htmlContent : String
  textContent : String
  title : String
  metaDescription : String
  statusCode : Nat
  contentType : String
  wordCount : Nat
  urlHash : String
deriving DecidableEq, Repr

/-- Model of `db.add` + `db.commit` under the global unique index on `url_hash`:
a clashing insert raises `IntegrityError`, which the scraper answers with a
rollback (the row is not stored).  Returns (new table, insert succeeded). -/
def dbCommitAdd (db : List StoredPage) (p : StoredPage) :
    List StoredPage × Bool :=
  if db.any (fun q => q.urlHash = p.urlHash) then (db, false)
  else (db ++ [p], true)

/-- The environment of one `scrape_domain` call: what the network, the HTML
link extractor (`extract_links`, BeautifulSoup-backed) and the sitemap probe
(`find_sitemap`) produce.  Python's `set` has no observable iteration order;
the model keeps first-insertion order, which no modelled claim depends on. -/
structure CrawlEnv where
  robots : RobotsResp
  homeEv : FetchEvent
  pageEv : Url → FetchEvent
  linksHome : List Url
  linksPage : Url → List Url
  sitemap : Option (List Url)

/-- Set-semantics insertion used for `visited` / `to_visit`. -/
def setAdd (xs : List Url) (u : Url) : List Url :=
  if u ∈ xs then xs else xs ++ [u]

def setAddAll (xs : List Url) (us : List Url) : List Url :=
  us.foldl setAdd xs

/-- First-occurrence dedup for the link sets `extract_links` returns. -/
def urlSetOf (us : List Url) : List Url :=
  setAddAll [] us

/-- The mutable state of the crawl loop in `scrape_domain`. -/
structure CrawlState where
  db : List StoredPage
  visited : List Url
  toVisit : List Url
  pagesScraped : Nat
  priorityUrls : List Url
  debug : ScrapeDebug
  fetchTrace : List Url

/-- What `scrape_domain` returns (plus the table state and the list of URLs a
fetch was actually attempted on, both observable effects of the crawl). -/
structure CrawlResult where
  pagesScraped : Nat
  priorityUrls : List Url
  debug : ScrapeDebug
  db : List StoredPage
  fetchTrace : List Url

/-- Model of `sorted(links, key=identify_page_priority)` (stable). -/
def sortByPriority (us : List Url) : List Url :=
  stableSort (fun a b => identify_page_priority a < identify_page_priority b) us

/-- One pass of the `while to_visit and pages_scraped < max_pages` loop of
`scrape_domain`, with explicit fuel (the loop terminates because each
iteration consumes one frontier entry and at most 30 entries are added per
successful fetch, of which there are at most `max_pages`). -/
def crawlLoop (env : CrawlEnv) (hashHex : Url → String) (jobId domain : String)
    (isTarget : Bool) (maxPages : Nat) : Nat → CrawlState → CrawlState
  | 0, s => s
  | fuel + 1, s =>
    match s.toVisit with
    | [] => s
    | url :: rest =>
      if s.pagesScraped < maxPages then
        let s := { s with toVisit := rest }
        if url ∈ s.visited then
          crawlLoop env hashHex jobId domain isTarget maxPages fuel s
        else
          let h := get_url_hash hashHex url
          if s.db.any (fun q => q.urlHash = h ∧ q.auditJobId = jobId) then
            crawlLoop env hashHex jobId domain isTarget maxPages fuel
              { s with visited := setAdd s.visited url }
          else
            let s := { s with fetchTrace := s.fetchTrace ++ [url] }
            match fetch_page url (env.pageEv url) false s.debug with
            | (none, d) =>
              crawlLoop env hashHex jobId domain isTarget maxPages fuel
                { s with debug := d, visited := setAdd s.visited url }
            | (some r, d) =>
              let page : StoredPage :=
                { auditJobId := jobId, url := url, domain := domain
                  isTarget := isTarget, htmlContent := r.html
                  textContent := r.text, title := r.title
                  metaDescription := r.meta, statusCode := r.status
                  contentType := "text/html", wordCount := pyWordCount r.text
                  urlHash := h }
              match dbCommitAdd s.db page with
              | (db', false) =>
                crawlLoop env hashHex jobId domain isTarget maxPages fuel
                  { s with debug := d, db := db', visited := setAdd s.visited url }
              | (db', true) =>
                let s := { s with debug := d, db := db',
                                  visited := setAdd s.visited url,
                                  pagesScraped := s.pagesScraped + 1 }
                let s := if identify_page_priority url ≤ 2 then
                    { s with priorityUrls := s.priorityUrls ++ [url] }
                  else s
                let s :=
                  if isTarget ∧ s.pagesScraped < maxPages then
                    let newLinks :=
                      (sortByPriority (urlSetOf ((env.linksPage url).map normalize_url))).take 30
                    { s with toVisit := (newLinks.filter (fun l => l ∉ s.visited)).foldl setAdd s.toVisit }
                  else s
                crawlLoop env hashHex jobId domain isTarget maxPages fuel s
      else s

/-- The domain normalisation at the top of `scrape_domain`. -/
def cleanDomain (raw : String) : String :=
  stripSlashes (pyReplace (pyReplace raw "https://" "") "http://" "")

/-- The homepage URL `https://{domain}` that `scrape_domain` builds. -/
def startUrlOf (raw : String) : Url :=
  ⟨"https", cleanDomain raw, "", "", "", ""⟩

/-- Model of `WebScraper.scrape_domain`.  The homepage save guards against a duplicate
within the job, commits under the global unique index (an `IntegrityError`
is swallowed), and `pages_scraped` is set to 1 regardless of whether the row
was actually stored.  `fuel` bounds the frontier loop. -/
def scrape_domain (env : CrawlEnv) (hashHex : Url → String)
    (db0 : List StoredPage) (jobId rawDomain : String) (isTarget : Bool)
    (maxPages fuel : Nat) : CrawlResult :=
  let domain := cleanDomain rawDomain
  let startUrl : Url := startUrlOf rawDomain
  let d0 : ScrapeDebug :=
    { inputUrl := rawDomain, normalizedUrl := some (urlToStr startUrl) }
  let (_, d1) := check_robots env.robots d0
  if d1.robotsDisallowsAll then
    { pagesScraped := 0, priorityUrls := [],
      debug := { d1 with blockedReason := some "robots_disallow",
                         errors := d1.errors ++ ["robots.txt disallows all crawling"] },
      db := db0, fetchTrace := [] }
  else
    match fetch_page startUrl env.homeEv true d1 with
    | (none, d2) =>
      let d2 := if d2.blockedReason = none then
          { d2 with blockedReason := some "homepage_failed" }
        else d2
      { pagesScraped := 0, priorityUrls := [], debug := d2, db := db0,
        fetchTrace := [startUrl] }
    | (some r, d2) =>
      let h := get_url_hash hashHex startUrl
      let db1 :=
        if db0.any (fun q => q.urlHash = h ∧ q.auditJobId = jobId) then db0
        else
          (dbCommitAdd db0
            { auditJobId := jobId, url := d2.finalUrl.getD startUrl
              domain := domain, isTarget := isTarget, htmlContent := r.html
              textContent := r.text, title := r.title, metaDescription := r.meta
              statusCode := r.status, contentType := "text/html"
              wordCount := pyWordCount r.text, urlHash := h }).1
      let visited := [startUrl]
      let priorityUrls := [d2.finalUrl.getD startUrl]
      let homepageLinks := urlSetOf (env.linksHome.map normalize_url)
      let d3 := { d2 with linksExtractedFromHomepage := homepageLinks.length }
      let toVisit :=
        (sortByPriority homepageLinks).foldl
          (fun tv l => if l ∉ visited then setAdd tv l else tv) []
      let (toVisit, d4) :=
        match env.sitemap with
        | some us =>
          if us ≠ [] then
            (us.foldl (fun tv u =>
                let n := normalize_url u
                if n ∉ visited then setAdd tv n else tv) toVisit,
             { d3 with sitemapFound := true, sitemapUrlsCount := us.length })
          else (toVisit, d3)
        | none => (toVisit, d3)
      let s0 : CrawlState :=
        { db := db1, visited := visited, toVisit := toVisit, pagesScraped := 1
          priorityUrls := priorityUrls, debug := d4, fetchTrace := [startUrl] }
      let s := crawlLoop env hashHex jobId domain isTarget maxPages fuel s0
      { pagesScraped := s.pagesScraped, priorityUrls := s.priorityUrls,
        debug := s.debug, db := s.db, fetchTrace := s.fetchTrace }

/-- Per-job dedup-key uniqueness: no two stored rows of one job share a
`url_hash`. -/
def jobUniq : List StoredPage → Bool
  | [] => true
  | p :: rest =>
    rest.all (fun q => ¬ (q.auditJobId = p.auditJobId ∧ q.urlHash = p.urlHash))
      && jobUniq rest

/-- Global dedup-key uniqueness (the `unique=True` index on `url_hash`):
no two stored rows at all share a `url_hash`. -/
def globalUniq : List StoredPage → Bool
  | [] => true
  | p :: rest => rest.all (fun q => q.urlHash ≠ p.urlHash) && globalUniq rest

/-- The robots.txt outcome permits crawling (the negation of the
blanket-disallow detection on a 200 body; failures are permissive). -/
def robotsAllows (r : RobotsResp) : Bool :=
  match r with
  | some (st, c) => ¬ (st = 200 ∧ robotsDisallowsAllContent c)
  | none => true

/-! ### Concrete crawl scenarios (used by counterexamples and witnesses).
`idHash` stands in for the SHA-256 hex digest: the dedup logic only ever
compares digests for equality. -/

def idHash (u : Url) : String := urlToStr u

/-- Homepage answers HTTP 403; robots.txt answers 404 (permissive). -/
def env403 : CrawlEnv :=
  { robots := some (404, "")
    homeEv := FetchEvent.resp 403 "text/html" 100 "" "" "" "" (startUrlOf "example.com")
    pageEv := fun _ => FetchEvent.otherExc "x"
    linksHome := []
    linksPage := fun _ => []
    sitemap := none }

/-- A robots.txt body whose wildcard block blankets "/" only on its fifth
rule line — beyond the four-line window `check_robots` scans. -/
def robotsFarBlanket : String :=
  "User-agent: *\nDisallow: /admin\nDisallow: /tmp\nDisallow: /x\nDisallow: /y\nDisallow: /"

/-- Robots serves `robotsFarBlanket`; the homepage then answers 200. -/
def envFarBlanket : CrawlEnv :=
  { robots := some (200, robotsFarBlanket)
    homeEv := FetchEvent.resp 200 "text/html" 10 "h" "hello world" "t" "m"
        (startUrlOf "example.com")
    pageEv := fun _ => FetchEvent.otherExc "x"
    linksHome := []
    linksPage := fun _ => []
    sitemap := none }

/-- A crawl whose homepage succeeds and discovers nothing further. -/
def envPlain : CrawlEnv :=
  { robots := some (404, "")
    homeEv := FetchEvent.resp 200 "text/html" 10 "h" "hello world" "t" "m"
        (startUrlOf "example.com")
    pageEv := fun _ => FetchEvent.otherExc "x"
    linksHome := []
    linksPage := fun _ => []
    sitemap := none }

/-- A row some *other* job already stored under the dedup key of
`example.com`'s homepage (as hashed by `idHash`). -/
def otherJobRow : StoredPage :=
  { auditJobId := "jobA", url := normalize_url (startUrlOf "example.com")
    domain := "example.com", isTarget := true, htmlContent := "x"
    textContent := "y", title := "", metaDescription := "", statusCode := 200
    contentType := "text/html", wordCount := 1
    urlHash := idHash (normalize_url (startUrlOf "example.com")) }

/-- A minimal blanket-disallow robots.txt, detected by `check_robots`. -/
def envBlanket : CrawlEnv :=
  { robots := some (200, "User-agent: *\nDisallow: /")
    homeEv := FetchEvent.resp 200 "text/html" 10 "h" "hello world" "t" "m"
        (startUrlOf "example.com")
    pageEv := fun _ => FetchEvent.otherExc "x"
    linksHome := []
    linksPage := fun _ => []
    sitemap := none }

/-! ## JSON values

Shared by the JSON-LD handling of the evidence extractor and by the audit
document that the Stage-A post-processing and the QA gate manipulate.
Numbers are integral: no modelled code path computes with JSON floats. -/

inductive Jv where
  | null
  | bool (b : Bool)
  | num (n : Int)
  | str (s : String)
  | arr (xs : List Jv)
  | obj (kvs : List (String × Jv))

/-- Python `dict.get` on a parsed JSON object. -/
def jGet (kvs : List (String × Jv)) (k : String) : Option Jv :=
  (kvs.find? (fun kv => kv.1 = k)).map (fun kv => kv.2)

/-- Python `dict[k] = v`: replace in place, else append. -/
def jSet : List (String × Jv) → String → Jv → List (String × Jv)
  | [], k, v => [(k, v)]
  | (k', v') :: rest, k, v =>
    if k' = k then (k', v) :: rest else (k', v') :: jSet rest k v

/-- Python truthiness of a JSON value. -/
def jTruthy : Jv → Bool
  | Jv.null => false
  | Jv.bool b => b
  | Jv.num n => n ≠ 0
  | Jv.str s => s ≠ ""
  | Jv.arr xs => match xs with | [] => false | _ => true
  | Jv.obj kvs => match kvs with | [] => false | _ => true

/-! ## Evidence extractor model
(`backend/app/services/evidence_extractor.py`)

BeautifulSoup tag traversal and the two `re` find-alls are library
primitives, modelled as the `SoupOps` oracle; every list/string computation
after them is translated from the source. -/

/-- The `@type` strings of `_jsonld_types` input objects. -/
def jsonldTypeList (obj : List (String × Jv)) : List String :=
  match jGet obj "@type" with
  | some (Jv.str t) => [t]
  | some (Jv.arr xs) =>
    xs.filterMap (fun x => match x with | Jv.str s => some s | _ => none)
  | _ => []

/-- Model of `_jsonld_types`. -/
def jsonld_types (jsonlds : List (List (String × Jv))) : List String :=
  (dedupeKeepOrder (jsonlds.foldl (fun acc obj => acc ++ jsonldTypeList obj) [])).take 20

/-- Model of `_find_org_name`: the name of the first Organization/LocalBusiness-typed
object carrying a nonblank string name. -/
def find_org_name (jsonlds : List (List (String × Jv))) : Option String :=
  jsonlds.findSome? (fun obj =>
    let tlist2 := (jsonldTypeList obj).map pyLower
    if tlist2.any (fun x => x = "organization" ∨ x = "localbusiness") then
      match jGet obj "name" with
      | some (Jv.str n) => if normWs n ≠ "" then some (normWs n) else none
      | _ => none
    else none)

/-- Model of `_find_locations_from_jsonld`. -/
def find_locations_from_jsonld (jsonlds : List (List (String × Jv))) : List String :=
  let out := jsonlds.foldl (fun acc obj =>
    match jGet obj "address" with
    | some (Jv.obj addr) =>
      let parts := (["streetAddress", "addressLocality", "addressRegion",
          "postalCode", "addressCountry"]).filterMap (fun k =>
        match jGet addr k with
        | some (Jv.str v) => if normWs v ≠ "" then some (normWs v) else none
        | _ => none)
      if parts ≠ [] then acc ++ [String.intercalate ", " parts] else acc
    | _ => acc) []
  (dedupeKeepOrder out).take 10

/-- The sentence split `re.split(r"(?<=[.!?])\s+", t)` specialised to
whitespace-normalised input (runs are single spaces). -/
def splitSentencesGo (acc : List Char) : List Char → List String
  | [] => [acc.reverse.asString]
  | [c] => [(c :: acc).reverse.asString]
  | c :: c2 :: cs =>
    if (c = '.' ∨ c = '!' ∨ c = '?') ∧ c2 = ' ' then
      ((c :: acc).reverse.asString) :: splitSentencesGo [] cs
    else splitSentencesGo (c :: acc) (c2 :: cs)

def splitSentences (t : String) : List String :=
  splitSentencesGo [] t.toList

/-- Model of `_best_offer_sentences`: deterministic 1–2 sentence summary. -/
def best_offer_sentences (text : String) : Option String :=
  let t := normWs text
  if t = "" then none
  else
    let chunks := ((splitSentences t).map pyStrip).filter
        (fun c => 40 ≤ c.length ∧ c.length ≤ 260)
    if chunks = [] then none
    else
      let bad := ["cookie", "privacy", "terms", "subscribe", "newsletter", "copyright"]
      let good := ["we ", "our ", "provid", "offer", "help", "build", "deliver",
                   "service", "solution", "product"]
      let scored := (chunks.take 80).filterMap (fun c =>
        let lc := pyLower c
        if bad.any (fun b => containsSub lc b) then none
        else some ((if good.any (fun p => containsSub lc p) then 3 else 0) +
                   (if 80 ≤ c.length ∧ c.length ≤ 180 then 2 else 0), c))
      if scored = [] then none
      else
        match stableSort
            (fun a b => b.1 < a.1 ∨ (a.1 = b.1 ∧ a.2.length < b.2.length)) scored with
        | [] => none
        | (_, c0) :: restS =>
          let top :=
            match restS.find? (fun rc =>
                rc.2 ≠ c0 ∧ (c0 ++ " " ++ rc.2).length ≤ 360) with
            | some (_, c1) => [c0, c1]
            | none => [c0]
          some (pyTruncate (String.intercalate " " top) 360)

/-- Model of `_snippets_around`: first-occurrence keyword windows, stopping after
`maxSnips` hits, then deduplicated. -/
def snipGo (text lt : String) (window maxSnips : Nat) :
    List String → List String → List String
  | [], acc => acc.reverse
  | needle :: rest, acc =>
    if maxSnips ≤ acc.length then acc.reverse
    else
      match findIdx? lt (pyLower needle) with
      | none => snipGo text lt window maxSnips rest acc
      | some idx =>
        let start := idx - window
        let stop := min text.length (idx + needle.length + window)
        snipGo text lt window maxSnips rest
          (pyTruncate (slice text start stop) 260 :: acc)

def snippetsAround (text : String) (needles : List String)
    (maxSnips window : Nat) : List String :=
  if text = "" then []
  else dedupeKeepOrder (snipGo text (pyLower text) window maxSnips needles [])

/-- The fixed action-word vocabulary of `_extract_ctas`. -/
def ctaWords : List String :=
  ["contact", "book", "schedule", "request", "get a quote", "get quote",
   "quote", "demo", "call", "buy", "pricing", "plans", "start", "sign up",
   "signup", "trial"]

/-- Model of `_extract_ctas` applied to the texts of the page's a/button tags (both
class branches of the source call the same `consider`). -/
def extract_ctas (anchorTexts : List String) : List String :=
  (dedupeKeepOrder (anchorTexts.filterMap (fun txt =>
    if txt = "" then none
    else
      let t := normWs txt
      if 2 ≤ t.length ∧ t.length ≤ 64 ∧
          ctaWords.any (fun w => containsSub (pyLower t) w) then some t
      else none))).take 10

/-- The BeautifulSoup- and regex-backed helpers of `extract_page`, as an
oracle over the raw HTML / text strings. -/
structure SoupOps where
  language : String → Option String
  jsonld : String → List (List (String × Jv))
  h1 : String → Option String
  h2h3 : String → List String
  anchorTexts : String → List String
  internalLinks : String → String → String → Nat × List String
  emailsRe : String → List String
  phonesRe : String → List String

/-- The fields of `models.ScrapedPage` that `extract_page` reads. -/
structure SPage where
  url : String
  domain : String
  htmlContent : Option String
  textContent : Option String
  title : Option String
  metaDescription : Option String
deriving DecidableEq, Repr

structure Signals where
  pricingDetected : Bool
  pricingSnippets : List String
  contactDetected : Bool
  contactSnippets : List String
  emailsDetected : List String
  phonesDetected : List String
  locationsDetected : List String
deriving DecidableEq, Repr

/-- The per-page feature block `extract_page` returns. -/
structure PageBlock where
  url : String
  title : String
  metaDescription : String
  textExcerpt : String
  language : String
  h1 : String
  headings : List String
  ctaDetected : List String
  structuredDataTypes : List String
  jsonld : List (List (String × Jv))
  internalLinksTop : List String
  signals : Signals
  internalLinksUnique : Nat

/-- Model of `EvidenceExtractor.extract_page`. -/
def extract_page (ops : SoupOps) (p : SPage) : PageBlock :=
  let html := p.htmlContent.getD ""
  let lang := ops.language html
  let jsonlds := ops.jsonld html
  let sdTypes := jsonld_types jsonlds
  let h1v := match ops.h1 html with | some t => normWs t | none => ""
  let headings := (dedupeKeepOrder (ops.h2h3 html)).take 20
  let ctas := if html ≠ "" then extract_ctas (ops.anchorTexts html) else []
  let (ilCount, navTop) :=
    if html ≠ "" then ops.internalLinks html p.url p.domain else (0, [])
  let text := p.textContent.getD ""
  let lower := pyLower text
  let pricingSnips := snippetsAround text
    ["pricing", "price", "plans", "packages", "starting at", "$", "€", "£",
     "usd", "eur"] 2 140
  let pricingDetected :=
    pricingSnips ≠ [] ∨ (containsSub lower "pricing" ∧ 200 < text.length)
  let emails := (dedupeKeepOrder (ops.emailsRe text)).take 3
  let phones := (dedupeKeepOrder (ops.phonesRe text)).take 3
  let contactSnips := snippetsAround text
    ["contact", "call", "email", "phone", "address"] 2 140
  let contactDetected := emails ≠ [] ∨ phones ≠ [] ∨ contactSnips ≠ [] ∨
    containsSub (pyLower p.url) "contact"
  let locations0 := find_locations_from_jsonld jsonlds
  let locations :=
    if locations0 = [] then
      snippetsAround text ["address", "located", "location"] 1 140
    else locations0
  { url := p.url
    title := p.title.getD ""
    metaDescription := p.metaDescription.getD ""
    textExcerpt := pyTruncate (p.textContent.getD "") 1200
    language := pyOrStr (lang.getD "") "not detected"
    h1 := pyOrStr h1v "not detected"
    headings := headings
    ctaDetected := ctas
    structuredDataTypes := sdTypes
    jsonld := jsonlds.take 6
    internalLinksTop := navTop.take 10
    signals := { pricingDetected := pricingDetected
                 pricingSnippets := pricingSnips
                 contactDetected := contactDetected
                 contactSnippets := contactSnips
                 emailsDetected := emails
                 phonesDetected := phones
                 locationsDetected := locations.take 5 }
    internalLinksUnique := ilCount }

/-- Model of `EvidenceExtractor.extract_pages` with the production `max_pages=15`. -/
def extract_pages (ops : SoupOps) (pages : List SPage) : List PageBlock :=
  (pages.take 15).map (extract_page ops)

/-- Model of `urlparse(url).path` on a URL string (scheme-aware, query/fragment
stripped) — the path test of `build_company_profile`. -/
def urlPathOf (url : String) : String :=
  match findIdx? url "://" with
  | some i =>
    ((((url.toList.drop (i + 3)).dropWhile (fun c => c ≠ '/')).takeWhile
        (fun c => ¬ (c = '?' ∨ c = '#')))).asString
  | none =>
    ((url.toList.takeWhile (fun c => ¬ (c = '?' ∨ c = '#')))).asString

/-- Model of `urlparse(url).path.rstrip("/") in {"", "/"}`. -/
def isHomeUrl (url : String) : Bool :=
  let p := rstripSlashes (urlPathOf url)
  p = "" ∨ p = "/"

structure CompanyProfile where
  companyName : String
  primaryOfferSummary : String
  servicesDetected : List String
  locationsDetected : List String
  primaryLanguageDetected : String
  topPages : List String
deriving DecidableEq, Repr

/-- Lexicographic code-point comparison (Python `str` ordering). -/
def charListLt : List Char → List Char → Bool
  | [], [] => false
  | [], _ :: _ => true
  | _ :: _, [] => false
  | a :: as, b :: bs =>
    if a.toNat < b.toNat then true
    else if b.toNat < a.toNat then false
    else charListLt as bs

def strLt (a b : String) : Bool := charListLt a.toList b.toList

/-- First-insertion-order counter update (Python dict). -/
def assocIncr : List (String × Nat) → String → List (String × Nat)
  | [], u => [(u, 1)]
  | (k, v) :: rest, u =>
    if k = u then (k, v + 1) :: rest else (k, v) :: assocIncr rest u

/-- Model of `EvidenceExtractor._top_pages`: most frequently linked URLs, ties broken
by the URL string, top 10. -/
def top_pages (blocks : List PageBlock) : List String :=
  let counts := blocks.foldl (fun acc p =>
    (p.internalLinksTop.filter (fun u => u ≠ "")).foldl assocIncr acc) []
  ((stableSort (fun a b => b.2 < a.2 ∨ (a.2 = b.2 ∧ strLt a.1 b.1)) counts).take 10).map
    Prod.fst

/-- Model of `EvidenceExtractor.build_company_profile`. -/
def build_company_profile (blocks : List PageBlock) (fallbackDomain : String) :
    CompanyProfile :=
  let primaryLanguage := blocks.findSome? (fun p =>
    let lang := pyStrip p.language
    if lang ≠ "" ∧ pyLower lang ≠ "not detected" then some lang else none)
  let generic := ["home", "welcome", "about", "services", "products",
                  "solutions", "contact"]
  let services0 := blocks.foldl (fun acc p =>
    let url := pyLower p.url
    let title := pyLower p.title
    let isHome := isHomeUrl url
    let isServices := containsSub url "service" ∨ containsSub url "services" ∨
      containsSub title "services"
    if ¬ (isHome ∨ isServices) then acc
    else
      let cand := (if pyLower p.h1 ≠ "not detected" then [p.h1] else [])
        ++ p.headings
      acc ++ cand.filterMap (fun c =>
        let t := normWs c
        if 3 ≤ t.length ∧ t.length ≤ 80 ∧ pyLower t ∉ generic then some t
        else none)) []
  let services := (dedupeKeepOrder services0).take 12
  let preferHome := blocks.filter (fun p => isHomeUrl (pyLower p.url)) ++
    blocks.filter (fun p => ¬ isHomeUrl (pyLower p.url))
  let companyName0 := preferHome.findSome? (fun p => find_org_name p.jsonld)
  let locations := (dedupeKeepOrder (blocks.foldl
    (fun acc p => acc ++ p.signals.locationsDetected) [])).take 10
  let offer0 := (blocks.filter (fun p => isHomeUrl (pyLower p.url))).findSome?
    (fun p => best_offer_sentences p.textExcerpt)
  let offer1 : Option String :=
    match offer0 with
    | some o => some o
    | none => preferHome.findSome? (fun p =>
        if 60 ≤ (normWs p.metaDescription).length then
          some (pyTruncate p.metaDescription 260)
        else none)
  { companyName :=
      match companyName0 with
      | some n => n
      | none => pyOrStr fallbackDomain "this domain"
    primaryOfferSummary := offer1.getD "not detected"
    servicesDetected := services
    locationsDetected := locations
    primaryLanguageDetected := primaryLanguage.getD "not detected"
    topPages := top_pages blocks }

/-- Rational literal in lowest terms, kernel-reducible (the `OfScientific`
route normalises through `Nat.gcd` inside `WellFounded.fix`, which the
kernel cannot evaluate). -/
def rq (n : Int) (d : Nat) (h1 : d ≠ 0 := by decide)
    (h2 : n.natAbs.Coprime d := by decide) : Rat :=
  Rat.mk' n d h1 h2

/-- The immutable `EvidenceItem` dataclass. -/
structure EvItem where
  claim : String
  proofType : String
  sourceUrls : List String
  snippets : List String
  confidence : Rat
deriving DecidableEq, Repr

/-- The local `add` of `build_evidence_items`. -/
def mkEvidence (claim ptype : String) (srcs snips : List String) (conf : Rat) :
    EvItem :=
  { claim := pyTruncate claim 240
    proofType := ptype
    sourceUrls := (dedupeKeepOrder srcs).take 3
    snippets := (dedupeKeepOrder snips).take 3
    confidence := conf }

/-- The URL list `build_evidence_items` cites from. -/
def evUrls (blocks : List PageBlock) : List String :=
  blocks.map (fun p => p.url)

/-- The pricing rule of `build_evidence_items` (pricing-present versus
no-pricing). -/
def evPricingItem (blocks : List PageBlock) (profile : CompanyProfile) : EvItem :=
  let urls := evUrls blocks
  let pricingUrls := urls.filter (fun u =>
    (["pricing", "prices", "price", "plans"]).any
      (fun k => containsSub (pyLower u) k))
  let pricingSnips : List String := blocks.foldl
    (fun acc p => acc ++ p.signals.pricingSnippets) []
  if pricingUrls ≠ [] ∨ pricingSnips ≠ [] then
    mkEvidence
      "Pricing information is detectable, but may not be structured for AI quoting."
      "pricing_present"
      (if pricingUrls ≠ [] then pricingUrls.take 3 else urls.take 1)
      (pricingSnips.take 2)
      (if pricingUrls ≠ [] then (rq 3 4) else (rq 11 20))
  else
    mkEvidence
      "No pricing page or pricing section was detected in the sampled pages."
      "no_pricing" (profile.topPages.take 3) ["not detected"] (rq 13 20)

/-- The contact rule (contact-present versus no-contact). -/
def evContactItem (blocks : List PageBlock) (profile : CompanyProfile) : EvItem :=
  let urls := evUrls blocks
  let contactUrls := urls.filter (fun u => containsSub (pyLower u) "contact")
  let contactSnips : List String := blocks.foldl
    (fun acc p => acc ++ p.signals.contactSnippets) []
  let emails : List String := blocks.foldl
    (fun acc p => acc ++ p.signals.emailsDetected) []
  let phones : List String := blocks.foldl
    (fun acc p => acc ++ p.signals.phonesDetected) []
  if contactUrls ≠ [] ∨ emails ≠ [] ∨ phones ≠ [] ∨ contactSnips ≠ [] then
    mkEvidence
      "Contact details exist, but must be presented in a consistent, AI-quotable block."
      "contact_present"
      (if contactUrls.take 2 ≠ [] then contactUrls.take 2 else urls.take 2)
      ((dedupeKeepOrder (emails ++ phones ++ contactSnips)).take 2)
      (if contactUrls ≠ [] then (rq 4 5) else (rq 3 5))
  else
    mkEvidence
      "No clear contact page, email, or phone was detected in the sampled pages."
      "no_contact" (profile.topPages.take 3) ["not detected"] (rq 13 20)

/-- The entity-signals rule (present versus weak). -/
def evEntityItem (blocks : List PageBlock) : EvItem :=
  let urls := evUrls blocks
  let sdTypes := dedupeKeepOrder (blocks.foldl
    (fun acc p => acc ++ p.structuredDataTypes) [])
  if sdTypes.any (fun t => pyLower t = "organization" ∨ pyLower t = "localbusiness") then
    mkEvidence
      "Entity signals are present in structured data (Organization/LocalBusiness)."
      "entity_signals_present" (urls.take 2)
      ["structured_data_types: " ++ String.intercalate ", " (sdTypes.take 6)]
      (rq 4 5)
  else
    mkEvidence
      "No Organization/LocalBusiness structured data was detected in sampled pages."
      "weak_entity_signals" (urls.take 2)
      ["structured_data_types: " ++
        (if sdTypes ≠ [] then String.intercalate ", " (sdTypes.take 6)
         else "not detected")]
      (rq 3 5)

/-- The language-mismatch rule: emits one item only when the detected base
language differs from the requested locale's base code. -/
def evLangItems (blocks : List PageBlock) (profile : CompanyProfile)
    (locale : Option String) : List EvItem :=
  let urls := evUrls blocks
  match locale with
  | some l =>
    if pyStrip l ≠ "" then
      let detected := pyLower profile.primaryLanguageDetected
      let loc2 := (splitOnChar (pyLower l) '-').headD ""
      let det2 :=
        if detected ≠ "" ∧ detected ≠ "not detected" then
          (splitOnChar detected '-').headD ""
        else ""
      if det2 ≠ "" ∧ loc2 ≠ "" ∧ det2 ≠ loc2 then
        [mkEvidence
          ("Primary language on the site appears to differ from the requested locale ("
            ++ l ++ ").")
          "language_mismatch" (urls.take 2)
          ["html_lang_detected: " ++ profile.primaryLanguageDetected]
          (rq 7 10)]
      else []
    else []
  | none => []

/-- The fragmented-content rule: emits one item only when services were
detected but no URL carries a service-path hint. -/
def evFragItems (blocks : List PageBlock) (profile : CompanyProfile) :
    List EvItem :=
  let urls := evUrls blocks
  let services := profile.servicesDetected
  let hasServiceUrl := urls.any (fun u => containsSub (pyLower u) "service")
  if services ≠ [] ∧ ¬ hasServiceUrl then
    [mkEvidence
      "Service information appears present, but not organized into dedicated service explanation pages."
      "fragmented_content" (urls.take 3)
      ["services_detected: " ++ String.intercalate ", " (services.take 5)]
      (rq 3 5)]
  else []

/-- Model of `EvidenceExtractor.build_evidence_items`: the fixed deterministic rule
set over the page blocks and the company profile, capped at 12 items. -/
def build_evidence_items (blocks : List PageBlock) (profile : CompanyProfile)
    (locale : Option String) : List EvItem :=
  ([evPricingItem blocks profile, evContactItem blocks profile,
    evEntityItem blocks]
    ++ evLangItems blocks profile locale
    ++ evFragItems blocks profile).take 12

/-- Model of `EvidenceItem.to_dict` output. -/
structure EvDict where
  claim : String
  proofType : String
  sourceUrls : List String
  snippets : List String
  confidence : Rat
deriving DecidableEq, Repr

/-- Model of `EvidenceItem.to_dict`. -/
def evidence_to_dict (e : EvItem) : EvDict :=
  { claim := e.claim
    proofType := e.proofType
    sourceUrls := e.sourceUrls.take 3
    snippets := (e.snippets.map (fun s => pyTruncate s 260)).take 3
    confidence := max 0 (min 1 e.confidence) }

/-- The `{company_profile, pages, evidence}` dictionary. -/
structure EvidenceLayer where
  companyProfile : CompanyProfile
  pages : List PageBlock
  evidence : List EvDict

/-- Model of `EvidenceExtractor.build_evidence_layer`. -/
def build_evidence_layer (ops : SoupOps) (pages : List SPage)
    (fallbackDomain : String) (locale : Option String) : EvidenceLayer :=
  let pageBlocks := extract_pages ops pages
  let profile := build_company_profile pageBlocks fallbackDomain
  let items := build_evidence_items pageBlocks profile locale
  { companyProfile := profile
    pages := pageBlocks
    evidence := items.map evidence_to_dict }

/-! ### Concrete evidence scenarios -/

/-- An oracle for pages whose HTML holds nothing of interest. -/
def soupEmpty : SoupOps :=
  { language := fun _ => none, jsonld := fun _ => [], h1 := fun _ => none,
    h2h3 := fun _ => [], anchorTexts := fun _ => [],
    internalLinks := fun _ _ _ => (0, []), emailsRe := fun _ => [],
    phonesRe := fun _ => [] }

/-- A homepage whose navigation links to `/team` (a page that was never
fetched), and which carries no pricing or contact signal. -/
def soupNavTeam : SoupOps :=
  { soupEmpty with
    internalLinks := fun _ _ _ => (1, ["https://example.com/team"]) }

def pageHomeOnly : SPage :=
  { url := "https://example.com/", domain := "example.com",
    htmlContent := some "<html><nav><a href=/team>Team</a></nav></html>",
    textContent := some "hello world", title := some "Home",
    metaDescription := some "" }

/-- The first evidence entry `build_evidence_layer` produces for
`[pageHomeOnly]` under `soupNavTeam`: a no-pricing item citing the
never-fetched `/team` URL. -/
def noPricingTeamItem : EvDict :=
  { claim := "No pricing page or pricing section was detected in the sampled pages."
    proofType := "no_pricing"
    sourceUrls := ["https://example.com/team"]
    snippets := ["not detected"]
    confidence := (rq 13 20) }

/-! ## Stage-A decision post-processing
(`LLMAuditor.run_stage_a`, the `decision_readiness_audit` /
`decision_coverage_score` block)

One entry of the structural array: the transformation reads only `status`;
the three advisory text fields of the filler records are carried for
fidelity, the remaining generator text is irrelevant to it. -/

structure DRElement where
  elementName : String
  status : Option String
  whatAiRequires : String := ""
  whatWeFound : String := ""
  impactOnRecommendation : String := ""
deriving DecidableEq, Repr

/-- Model of `decision_coverage_score` as a four-count record (a generator score
missing one of the keys behaves, where the code reads it, like the key
defaulting shown in `run_stage_a`; an entirely empty dict behaves like an
absent score and is modelled as `none`). -/
structure CoverageScore where
  present : Int
  weak : Int
  missing : Int
  total : Int
deriving DecidableEq, Repr

/-- The tally `run_stage_a` recomputes from the structural array:
`weak` also counts the "fragmented" status. -/
def calcCoverageScore (elements : List DRElement) : CoverageScore :=
  { present := ((elements.filter (fun e => e.status = some "present")).length : Int)
    weak := ((elements.filter (fun e =>
        e.status = some "weak" ∨ e.status = some "fragmented")).length : Int)
    missing := ((elements.filter (fun e => e.status = some "missing")).length : Int)
    total := (elements.length : Int) }

/-- The generated minimal padding records ("Decision Element i+1"). -/
def genFallbackElements (n : Nat) : List DRElement :=
  (List.range n).map (fun i =>
    { elementName := "Decision Element " ++ toString (i + 1)
      status := some "missing"
      whatAiRequires := "AI needs structured information."
      whatWeFound := "Not detected in evidence."
      impactOnRecommendation := "AI cannot make informed recommendations." })

/-- The padding step: when the array has fewer than 12 entries, append
entries from the generator-supplied `_fallback_decision_elements` list if
one is present (possibly fewer than needed), else generated fillers. -/
def padDecisionElements (elements fallback : List DRElement) : List DRElement :=
  if elements.length < 12 then
    let fb := if fallback = [] then genFallbackElements (12 - elements.length)
      else fallback
    elements ++ fb.take (12 - elements.length)
  else elements

/-- Lines 1532–1567 of `llm_auditor.py`: pad, recount, and store either the
recount or the generator score.  The generator score is replaced only when
it is absent, reports total 0, or reports a total different from the array
length; otherwise it is kept verbatim. -/
def decisionPostProcess (elements fallback : List DRElement)
    (llm : Option CoverageScore) : List DRElement × CoverageScore :=
  let elements' := padDecisionElements elements fallback
  let recount := calcCoverageScore elements'
  let stored :=
    match llm with
    | none => recount
    | some s =>
      if s.total = 0 then recount
      else if s.total ≠ (elements'.length : Int) then recount
      else s
  (elements', stored)

/-- Eight generator elements, all "missing". -/
def elemsEight : List DRElement :=
  (List.range 8).map (fun i =>
    { elementName := "Generator Element " ++ toString (i + 1)
      status := some "missing" })

/-- A generator-reported score whose total matches the padded array length
but whose per-status counts contradict the recount. -/
def llmScoreWrong : CoverageScore := { present := 12, weak := 0, missing := 0, total := 12 }

/-! ## Deterministic QA gate (`LLMAuditor._qa_validate_and_fix`)

The audit document is a JSON value; Python mutates it in place, so the
model threads the document through the phases in source order and an
exception surfaces as `Except.error` carrying the document state at the
raise point.  The two hedging regex substitutions are `re` primitives,
passed as the opaque `dehedgeFn`. -/

/-- Python `str(...)` on a parsed JSON value.  The rendering of nested
containers is abbreviated: no modelled code path inspects it. -/
def pyStr : Jv → String
  | Jv.null => "None"
  | Jv.bool true => "True"
  | Jv.bool false => "False"
  | Jv.num n => toString n
  | Jv.str s => s
  | Jv.arr _ => "[…]"
  | Jv.obj _ => "\x7b…\x7d"

/-- Model of `str(x or "")`: an absent or falsy value renders as "". -/
def pyStrOr (v : Option Jv) : String :=
  match v with
  | none => ""
  | some v => if jTruthy v then pyStr v else ""

/-- Python `int(x)` on a JSON value (`none` models the raise the caller
catches). -/
def pyIntOf : Jv → Option Int
  | Jv.num n => some n
  | Jv.bool b => some (if b then 1 else 0)
  | Jv.str s =>
    let t := pyStrip s
    match t.toList with
    | '-' :: rest => (strToNat? (String.mk rest)).map (fun n => -(n : Int))
    | '+' :: rest => (strToNat? (String.mk rest)).map (fun n => (n : Int))
    | _ => (strToNat? t).map (fun n => (n : Int))
  | _ => none

/-- Model of `ensure_refs`: keep integral refs in range, default to `[0]` when the
catalog is non-empty, cap at 3. -/
def ensureRefs (evLen : Nat) (refs : Option Jv) : List Int :=
  let rl := match refs with | some (Jv.arr xs) => xs | _ => []
  let out := rl.filterMap (fun x =>
    match pyIntOf x with
    | some n => if 0 ≤ n ∧ n < (evLen : Int) then some n else none
    | none => none)
  (if out = [] ∧ 0 < evLen then [0] else out).take 3

/-- The `what_must_be_built` default template. -/
def wmbTemplate (topService : String) : String :=
  "Build: \"How " ++ topService ++ " Works\" + \"" ++ topService ++
    " Pricing & Packages\" + a structured FAQ block."

/-- One pass of the stage-2 reason loop body. -/
def qaFixReason (dehedgeFn : String → String) (evLen : Nat)
    (companyName topService : String) (services : List String) (r : Jv) : Jv :=
  match r with
  | Jv.obj rkvs0 =>
    let rkvs := jSet rkvs0 "evidence_refs"
      (Jv.arr ((ensureRefs evLen (jGet rkvs0 "evidence_refs")).map Jv.num))
    let rkvs := (["how_llms_decide", "what_we_found_on_your_site",
        "what_ai_does_instead", "what_must_be_built"]).foldl
      (fun acc k =>
        match jGet acc k with
        | some (Jv.str s) => jSet acc k (Jv.str (dehedgeFn s))
        | _ => acc) rkvs
    let rkvs :=
      match jGet rkvs "what_must_be_built" with
      | some (Jv.str wmb) =>
        if pyStrip wmb = "" then
          jSet rkvs "what_must_be_built" (Jv.str (wmbTemplate topService))
        else if ¬ containsSub wmb "How " ∧ ¬ containsSub wmb "Pricing" ∧
            ¬ containsSub (pyLower wmb) (pyLower topService) then
          jSet rkvs "what_must_be_built"
            (Jv.str (dropTrailingDots wmb ++ " Example: \"How " ++ topService ++ " Works\"."))
        else rkvs
      | _ => jSet rkvs "what_must_be_built" (Jv.str (wmbTemplate topService))
    let blob := pyLower (String.intercalate " "
      [pyStrOr (jGet rkvs "how_llms_decide"),
       pyStrOr (jGet rkvs "what_we_found_on_your_site"),
       pyStrOr (jGet rkvs "what_ai_does_instead"),
       pyStrOr (jGet rkvs "what_must_be_built")])
    if containsSub blob (pyLower companyName) ∨
        (services.take 3).any (fun s0 => containsSub blob (pyLower s0)) then
      Jv.obj rkvs
    else
      Jv.obj (jSet rkvs "what_we_found_on_your_site"
        (Jv.str ((companyName ++ ": " ++ topService ++
          " coverage is not structured for AI quoting. " ++
          pyOrStr (pyStrip (pyStrOr (jGet rkvs "what_we_found_on_your_site")))
            "Not detected in the crawl.").take 260)))
  | other => other

/-- Stage-2 phase: patch every reason dict of
`stage_2_why_ai_chooses_others`. -/
def qaPhaseReasons (dehedgeFn : String → String) (evLen : Nat)
    (companyName topService : String) (services : List String)
    (kvs : List (String × Jv)) : List (String × Jv) :=
  match jGet kvs "stage_2_why_ai_chooses_others" with
  | some (Jv.arr rs) =>
    jSet kvs "stage_2_why_ai_chooses_others"
      (Jv.arr (rs.map (qaFixReason dehedgeFn evLen companyName topService services)))
  | _ => kvs

/-- Stage-3 phase: de-hedge the three narrative fields of each need. -/
def qaPhaseNeeds (dehedgeFn : String → String)
    (kvs : List (String × Jv)) : List (String × Jv) :=
  match jGet kvs "stage_3_what_ai_needs" with
  | some (Jv.arr ns) =>
    jSet kvs "stage_3_what_ai_needs" (Jv.arr (ns.map (fun n =>
      match n with
      | Jv.obj nkvs =>
        Jv.obj ((["what_it_unlocks", "impact", "what_we_saw"]).foldl
          (fun acc k =>
            match jGet acc k with
            | some (Jv.str s) => jSet acc k (Jv.str (dehedgeFn s))
            | _ => acc) nkvs)
      | other => other)))
  | _ => kvs

def neutralityDefault : String :=
  "This audit is platform-agnostic. Any capable team can implement it."

def offerDefault : String :=
  "If you want fast implementation without trial-and-error, we can deliver Wave 1 in a fixed scope with predictable cost. US-first GEO architecture, built for LLM quoting."

/-- Stage-5 phase: ensure the two closing blocks exist and swap the
forbidden word. -/
def qaPhaseImpact (kvs : List (String × Jv)) : List (String × Jv) :=
  match jGet kvs "stage_5_business_impact" with
  | some (Jv.obj imp0) =>
    let imp :=
      match jGet imp0 "neutrality_block" with
      | some (Jv.str nb) =>
        if pyStrip nb = "" then
          jSet imp0 "neutrality_block" (Jv.str neutralityDefault)
        else imp0
      | _ => jSet imp0 "neutrality_block" (Jv.str neutralityDefault)
    let imp :=
      match jGet imp "our_offer_block" with
      | some (Jv.str ob) =>
        if pyStrip ob = "" then
          jSet imp "our_offer_block" (Jv.str offerDefault)
        else imp
      | _ => jSet imp "our_offer_block" (Jv.str offerDefault)
    let imp := (["neutrality_block", "our_offer_block"]).foldl
      (fun acc k =>
        match jGet acc k with
        | some (Jv.str s) => jSet acc k (Jv.str (pyReplace s "cheap" "cost-effective"))
        | _ => acc) imp
    jSet kvs "stage_5_business_impact" (Jv.obj imp)
  | _ => kvs

/-- The company-name computation at the top of `_qa_validate_and_fix` —
the one expression in the function that can raise (subscripting
`appendix["sampled_urls"][0]`), and it runs before any mutation. -/
def qaCompanyName (kvs cp : List (String × Jv)) : Except Unit String :=
  let cn0 := pyStrip (pyStrOr (jGet cp "company_name"))
  if cn0 ≠ "" then Except.ok cn0
  else
    match jGet kvs "appendix" with
    | some (Jv.obj app) =>
      (match jGet app "sampled_urls" with
       | none => Except.ok "this domain"
       | some (Jv.arr []) => Except.error ()
       | some (Jv.arr (x :: _)) => Except.ok (pyStr x)
       | some (Jv.str s) =>
         (match s.toList with
          | [] => Except.error ()
          | c :: _ => Except.ok (String.mk [c]))
       | some _ => Except.error ())
    | _ => Except.ok "this domain"

/-- Model of `_qa_validate_and_fix`: `Except.error` carries the document state at the
raise point; the only raise site precedes every mutation, so the carried
state is the input document. -/
def qaValidateAndFix (dehedgeFn : String → String) (doc : Jv) : Except Jv Jv :=
  match doc with
  | Jv.obj kvs =>
    let evLayer := match jGet kvs "evidence_layer" with
      | some (Jv.obj e) => e | _ => []
    let evidence := match jGet evLayer "evidence" with
      | some (Jv.arr xs) => xs | _ => []
    let cp := match jGet evLayer "company_profile" with
      | some (Jv.obj c) => c | _ => []
    let services := match jGet cp "services_detected" with
      | some (Jv.arr xs) => xs.filterMap (fun j =>
          match j with
          | Jv.str s => if pyStrip s ≠ "" then some (pyStrip s) else none
          | _ => none)
      | _ => []
    let topService := services.headD "your core service"
    match qaCompanyName kvs cp with
    | Except.error _ => Except.error doc
    | Except.ok companyName =>
      Except.ok (Jv.obj (qaPhaseImpact (qaPhaseNeeds dehedgeFn
        (qaPhaseReasons dehedgeFn evidence.length companyName topService
          services kvs))))
  | d => Except.ok d

/-- The call site in `run_audit`: `try: _qa_validate_and_fix(...) except:
pass` — with in-place mutation, the caller is left with the document state
at the raise point. -/
def run_qa_gate (dehedgeFn : String → String) (doc : Jv) : Jv :=
  match qaValidateAndFix dehedgeFn doc with
  | Except.ok d => d
  | Except.error d => d

/-- A document on which the QA pass raises: empty `sampled_urls` and no
company profile. -/
def qaRaiseDoc : Jv :=
  Jv.obj [("appendix", Jv.obj [("sampled_urls", Jv.arr [])]),
          ("stage_2_why_ai_chooses_others", Jv.arr [Jv.obj [("how_llms_decide", Jv.str "might be relevant")]])]

/-! ## Theorems -/

/-! ## Theorems -/

theorem check_robots_keeps_false (r : RobotsResp) (d : ScrapeDebug)
    (hd : d.robotsDisallowsAll = false) (hr : robotsAllows r = true) :
    (check_robots r d).2.robotsDisallowsAll = false := by
  rcases r with _ | ⟨st, c⟩
  · simpa [check_robots] using hd
  · simp only [robotsAllows, decide_not, Bool.not_eq_true', decide_eq_false_iff_not] at hr
    simp only [check_robots]
    split
    · exact absurd ⟨(by assumption : st = 200 ∧ _).1, (by assumption : st = 200 ∧ _).2⟩ hr
    · simpa using hd

theorem jobUniq_iff_pairwise (db : List StoredPage) :
    jobUniq db = true ↔ db.Pairwise
      (fun p q => ¬ (q.auditJobId = p.auditJobId ∧ q.urlHash = p.urlHash)) := by
  induction db with
  | nil => simp [jobUniq]
  | cons p rest ih =>
    simp only [jobUniq, Bool.and_eq_true, List.all_eq_true, List.pairwise_cons, ih,
      decide_eq_true_eq]

theorem globalUniq_iff_pairwise (db : List StoredPage) :
    globalUniq db = true ↔ db.Pairwise (fun p q => q.urlHash ≠ p.urlHash) := by
  induction db with
  | nil => simp [globalUniq]
  | cons p rest ih =>
    simp only [globalUniq, Bool.and_eq_true, List.all_eq_true, List.pairwise_cons, ih,
      decide_eq_true_eq, ne_eq]

theorem dbCommitAdd_jobUniq (db : List StoredPage) (p : StoredPage)
    (h : jobUniq db = true) : jobUniq (dbCommitAdd db p).1 = true := by
  unfold dbCommitAdd
  split
  · exact h
  · next hany =>
    rw [jobUniq_iff_pairwise] at h ⊢
    rw [List.pairwise_append]
    refine ⟨h, by simp, ?_⟩
    intro a ha b hb
    simp only [List.mem_singleton] at hb
    subst hb
    rw [List.any_eq_true] at hany
    push_neg at hany
    intro hc
    exact (by simpa using hany a ha : ¬ a.urlHash = b.urlHash) hc.2.symm

theorem dbCommitAdd_globalUniq (db : List StoredPage) (p : StoredPage)
    (h : globalUniq db = true) : globalUniq (dbCommitAdd db p).1 = true := by
  unfold dbCommitAdd
  split
  · exact h
  · next hany =>
    rw [globalUniq_iff_pairwise] at h ⊢
    rw [List.pairwise_append]
    refine ⟨h, by simp, ?_⟩
    intro a ha b hb
    simp only [List.mem_singleton] at hb
    subst hb
    rw [List.any_eq_true] at hany
    push_neg at hany
    exact Ne.symm (by simpa using hany a ha)

theorem crawlLoop_db_inv (I : List StoredPage → Bool)
    (hI : ∀ db p, I db = true → I (dbCommitAdd db p).1 = true)
    (env : CrawlEnv) (hashHex : Url → String) (jobId domain : String)
    (isTarget : Bool) (maxPages : Nat) :
    ∀ fuel (s : CrawlState), I s.db = true →
      I (crawlLoop env hashHex jobId domain isTarget maxPages fuel s).db = true := by
  intro fuel
  induction fuel with
  | zero => intro s hs; simpa [crawlLoop] using hs
  | succ n ih =>
    intro s hs
    rw [crawlLoop]
    cases htv : s.toVisit with
    | nil => simpa using hs
    | cons url rest =>
      dsimp only
      by_cases hmax : s.pagesScraped < maxPages
      · rw [if_pos hmax]
        by_cases hvis : url ∈ s.visited
        · rw [if_pos hvis]
          exact ih _ hs
        · rw [if_neg hvis]
          by_cases hex : s.db.any
              (fun q => q.urlHash = get_url_hash hashHex url ∧ q.auditJobId = jobId) = true
          · rw [if_pos hex]
            exact ih _ hs
          · rw [if_neg hex]
            rcases hfp : fetch_page url (env.pageEv url) false s.debug with ⟨res, d⟩
            cases res with
            | none => exact ih _ hs
            | some r =>
              dsimp only
              rcases hdb : dbCommitAdd s.db
                  { auditJobId := jobId, url := url, domain := domain,
                    isTarget := isTarget, htmlContent := r.html,
                    textContent := r.text, title := r.title,
                    metaDescription := r.meta, statusCode := r.status,
                    contentType := "text/html", wordCount := pyWordCount r.text,
                    urlHash := get_url_hash hashHex url } with ⟨db', ok⟩
              have hdb' : I db' = true := by
                have h2 := hI s.db
                  { auditJobId := jobId, url := url, domain := domain,
                    isTarget := isTarget, htmlContent := r.html,
                    textContent := r.text, title := r.title,
                    metaDescription := r.meta, statusCode := r.status,
                    contentType := "text/html", wordCount := pyWordCount r.text,
                    urlHash := get_url_hash hashHex url } hs
                rw [hdb] at h2
                exact h2
              cases ok with
              | false => exact ih _ hdb'
              | true =>
                dsimp only
                split_ifs <;> exact ih _ hdb'
      · rw [if_neg hmax]
        exact hs

theorem scrape_domain_db_inv (I : List StoredPage → Bool)
    (hI : ∀ db p, I db = true → I (dbCommitAdd db p).1 = true)
    (env : CrawlEnv) (hashHex : Url → String) (db0 : List StoredPage)
    (jobId raw : String) (isTarget : Bool) (maxPages fuel : Nat)
    (h0 : I db0 = true) :
    I (scrape_domain env hashHex db0 jobId raw isTarget maxPages fuel).db = true := by
  rw [scrape_domain]
  dsimp only
  split
  · exact h0
  · rcases hfp : fetch_page (startUrlOf raw) env.homeEv true _ with ⟨res, d2⟩
    cases res with
    | none => exact h0
    | some r =>
      dsimp only
      apply crawlLoop_db_inv I hI
      split
      · exact h0
      · exact hI db0 _ h0

/-- C2 counterexample: a crawl whose homepage fetch returns HTTP 403 records
blocked reason "403_waf", not the string "firewall" the claim names. -/
theorem c2_counterexample :
    (scrape_domain env403 idHash [] "job1" "example.com" true 60 50).debug.homepageStatusCode
        = some 403 ∧
    (scrape_domain env403 idHash [] "job1" "example.com" true 60 50).pagesScraped = 0 ∧
    (scrape_domain env403 idHash [] "job1" "example.com" true 60 50).debug.blockedReason
        = some "403_waf" ∧
    (scrape_domain env403 idHash [] "job1" "example.com" true 60 50).debug.blockedReason
        ≠ some "firewall" := by
  decide

/-- C2 (amended): for every crawl whose robots check is permissive, whose
homepage URL passes the safety gate, and whose homepage fetch returns
HTTP 403, `scrape_domain` returns 0 pages and the debug record's blocked
reason is the string "403_waf" (the firewall/WAF classification). -/
theorem c2_homepage_403_zero_pages_waf (env : CrawlEnv) (hashHex : Url → String)
    (db0 : List StoredPage) (jobId raw : String) (isTarget : Bool)
    (maxPages fuel : Nat) (ct : String) (len : Nat)
    (html text title meta : String) (fin : Url)
    (hhome : env.homeEv = FetchEvent.resp 403 ct len html text title meta fin)
    (hrob : robotsAllows env.robots = true)
    (hsafe : is_safe_url (startUrlOf raw) = true) :
    (scrape_domain env hashHex db0 jobId raw isTarget maxPages fuel).pagesScraped = 0 ∧
    (scrape_domain env hashHex db0 jobId raw isTarget maxPages fuel).debug.blockedReason
      = some "403_waf" := by
  have h1 := check_robots_keeps_false env.robots
    { inputUrl := raw, normalizedUrl := some (urlToStr (startUrlOf raw)) } rfl hrob
  simp only [scrape_domain, h1, if_neg, Bool.false_eq_true, not_false_iff]
  rw [hhome]
  simp [fetch_page, hsafe]

/-- Witness for `c2_homepage_403_zero_pages_waf` at the concrete `env403`. -/
theorem c2_witness :
    (scrape_domain env403 idHash [] "job1" "example.com" true 60 50).pagesScraped = 0 ∧
    (scrape_domain env403 idHash [] "job1" "example.com" true 60 50).debug.blockedReason
      = some "403_waf" :=
  c2_homepage_403_zero_pages_waf env403 idHash [] "job1" "example.com" true 60 50
    "text/html" 100 "" "" "" "" (startUrlOf "example.com") rfl (by decide) (by decide)

/-- C5 counterexample: `robotsFarBlanket` is a wildcard-agent block containing
the exact line "Disallow: /" (as its fifth rule), yet the crawl is not
halted: a fetch is attempted, a page is scraped, and the blocked reason is
not "robots_disallow". -/
theorem c5_counterexample :
    ("user-agent: *" ∈ splitOnChar (pyLower robotsFarBlanket) '\n') ∧
    ("disallow: /" ∈ splitOnChar (pyLower robotsFarBlanket) '\n') ∧
    (scrape_domain envFarBlanket idHash [] "job1" "example.com" true 60 50).debug.blockedReason
      ≠ some "robots_disallow" ∧
    (scrape_domain envFarBlanket idHash [] "job1" "example.com" true 60 50).fetchTrace ≠ [] ∧
    (scrape_domain envFarBlanket idHash [] "job1" "example.com" true 60 50).pagesScraped = 1 := by
  decide

/-- C5 (amended): whenever robots.txt answers 200 with a body on which the
scraper's detection fires — an exact "disallow: /" line within the four
lines after a "user-agent: *" line — `scrape_domain` returns 0 pages,
records blocked reason "robots_disallow", and attempts no page fetch. -/
theorem c5_robots_blanket_halts_crawl (env : CrawlEnv) (hashHex : Url → String)
    (db0 : List StoredPage) (jobId raw : String) (isTarget : Bool)
    (maxPages fuel : Nat) (content : String)
    (hr : env.robots = some (200, content))
    (hdet : robotsDisallowsAllContent content = true) :
    (scrape_domain env hashHex db0 jobId raw isTarget maxPages fuel).pagesScraped = 0 ∧
    (scrape_domain env hashHex db0 jobId raw isTarget maxPages fuel).debug.blockedReason
      = some "robots_disallow" ∧
    (scrape_domain env hashHex db0 jobId raw isTarget maxPages fuel).fetchTrace = [] := by
  simp [scrape_domain, hr, check_robots, hdet]

/-- Witness for `c5_robots_blanket_halts_crawl` at the concrete `envBlanket`. -/
theorem c5_witness :
    (scrape_domain envBlanket idHash [] "job1" "example.com" true 60 50).pagesScraped = 0 ∧
    (scrape_domain envBlanket idHash [] "job1" "example.com" true 60 50).debug.blockedReason
      = some "robots_disallow" ∧
    (scrape_domain envBlanket idHash [] "job1" "example.com" true 60 50).fetchTrace = [] :=
  c5_robots_blanket_halts_crawl envBlanket idHash [] "job1" "example.com" true 60 50
    "User-agent: *\nDisallow: /" rfl (by decide)

/-- C8: for every environment, hash function, job and initial table state
satisfying per-job dedup-key uniqueness, the table after `scrape_domain`
still satisfies it — a loop iteration either skips a URL whose key is
already stored for the job or commits a row under the unique index, which
admits only fresh keys. -/
theorem c8_per_job_dedup_uniqueness (env : CrawlEnv) (hashHex : Url → String)
    (db0 : List StoredPage) (jobId raw : String) (isTarget : Bool)
    (maxPages fuel : Nat) (h0 : jobUniq db0 = true) :
    jobUniq (scrape_domain env hashHex db0 jobId raw isTarget maxPages fuel).db = true :=
  scrape_domain_db_inv jobUniq dbCommitAdd_jobUniq env hashHex db0 jobId raw
    isTarget maxPages fuel h0

/-- Witness for `c8_per_job_dedup_uniqueness` on a concrete crawl. -/
theorem c8_witness :
    jobUniq ([] : List StoredPage) = true ∧
    jobUniq (scrape_domain envPlain idHash [] "jobB" "example.com" true 60 50).db = true :=
  ⟨by decide, c8_per_job_dedup_uniqueness envPlain idHash [] "jobB" "example.com" true 60 50
    (by decide)⟩

/-- C10: the dedup key is globally unique across jobs — `scrape_domain`
preserves global `url_hash` uniqueness of the table — and on a concrete
crawl whose homepage key is already stored under another job the insert is
skipped (0 rows stored for this job) while the crawl continues and still
reports `pagesScraped = 1`, exceeding the rows actually stored. -/
theorem c10_global_hash_uniqueness :
    (∀ (env : CrawlEnv) (hashHex : Url → String) (db0 : List StoredPage)
       (jobId raw : String) (isTarget : Bool) (maxPages fuel : Nat),
       globalUniq db0 = true →
       globalUniq (scrape_domain env hashHex db0 jobId raw isTarget maxPages fuel).db = true) ∧
    ((scrape_domain envPlain idHash [otherJobRow] "jobB" "example.com" true 60 50).pagesScraped = 1 ∧
     ((scrape_domain envPlain idHash [otherJobRow] "jobB" "example.com" true 60 50).db.filter
        (fun p => p.auditJobId = "jobB")).length = 0 ∧
     ((scrape_domain envPlain idHash [otherJobRow] "jobB" "example.com" true 60 50).db.filter
        (fun p => p.auditJobId = "jobB")).length
       < (scrape_domain envPlain idHash [otherJobRow] "jobB" "example.com" true 60 50).pagesScraped) :=
  ⟨fun env hashHex db0 jobId raw isTarget maxPages fuel h0 =>
    scrape_domain_db_inv globalUniq dbCommitAdd_globalUniq env hashHex db0 jobId raw
      isTarget maxPages fuel h0,
   by decide⟩

/-- Witness for the universal part of `c10_global_hash_uniqueness`. -/
theorem c10_witness :
    globalUniq [otherJobRow] = true ∧
    globalUniq (scrape_domain envPlain idHash [otherJobRow] "jobB" "example.com" true 60 50).db
      = true :=
  ⟨by decide, c10_global_hash_uniqueness.1 envPlain idHash [otherJobRow] "jobB" "example.com"
    true 60 50 (by decide)⟩

theorem mem_dedupeGo (s : String) : ∀ (xs : List String) (seen : List String),
    s ∈ dedupeGo seen xs → ∃ u ∈ xs, s = normWs u := by
  intro xs
  induction xs with
  | nil => intro seen h; simp [dedupeGo] at h
  | cons x t ih =>
    intro seen h
    rw [dedupeGo] at h
    by_cases h1 : normWs x = ""
    · rw [if_pos h1] at h
      obtain ⟨u, hu, rfl⟩ := ih seen h
      exact ⟨u, by simp [hu], rfl⟩
    · rw [if_neg h1] at h
      by_cases h2 : pyLower (normWs x) ∈ seen
      · rw [if_pos h2] at h
        obtain ⟨u, hu, rfl⟩ := ih seen h
        exact ⟨u, by simp [hu], rfl⟩
      · rw [if_neg h2] at h
        rcases List.mem_cons.mp h with h3 | h3
        · exact ⟨x, by simp, h3⟩
        · obtain ⟨u, hu, rfl⟩ := ih _ h3
          exact ⟨u, by simp [hu], rfl⟩

theorem mem_dedupeKeepOrder (s : String) (xs : List String)
    (h : s ∈ dedupeKeepOrder xs) : ∃ u ∈ xs, s = normWs u :=
  mem_dedupeGo s xs [] h

theorem mkEvidence_sources_mem (c p : String) (srcs snips : List String)
    (cf : Rat) (s : String) (h : s ∈ (mkEvidence c p srcs snips cf).sourceUrls) :
    ∃ u ∈ srcs, s = normWs u :=
  mem_dedupeKeepOrder s srcs (List.mem_of_mem_take h)

theorem evPricingItem_sources (blocks : List PageBlock) (profile : CompanyProfile)
    (s : String) (h : s ∈ (evPricingItem blocks profile).sourceUrls) :
    ∃ u, (u ∈ evUrls blocks ∨ u ∈ profile.topPages) ∧ s = normWs u := by
  unfold evPricingItem at h
  dsimp only at h
  split_ifs at h <;>
    (obtain ⟨u, hu, rfl⟩ := mkEvidence_sources_mem _ _ _ _ _ _ h
     first
       | exact ⟨u, Or.inl ((List.mem_filter.mp (List.mem_of_mem_take hu)).1), rfl⟩
       | exact ⟨u, Or.inl (List.mem_of_mem_take hu), rfl⟩
       | exact ⟨u, Or.inr (List.mem_of_mem_take hu), rfl⟩)

theorem evContactItem_sources (blocks : List PageBlock) (profile : CompanyProfile)
    (s : String) (h : s ∈ (evContactItem blocks profile).sourceUrls) :
    ∃ u, (u ∈ evUrls blocks ∨ u ∈ profile.topPages) ∧ s = normWs u := by
  unfold evContactItem at h
  dsimp only at h
  split_ifs at h <;>
    (obtain ⟨u, hu, rfl⟩ := mkEvidence_sources_mem _ _ _ _ _ _ h
     first
       | exact ⟨u, Or.inl ((List.mem_filter.mp (List.mem_of_mem_take hu)).1), rfl⟩
       | exact ⟨u, Or.inl (List.mem_of_mem_take hu), rfl⟩
       | exact ⟨u, Or.inr (List.mem_of_mem_take hu), rfl⟩)

theorem evEntityItem_sources (blocks : List PageBlock)
    (s : String) (h : s ∈ (evEntityItem blocks).sourceUrls) :
    ∃ u, u ∈ evUrls blocks ∧ s = normWs u := by
  unfold evEntityItem at h
  dsimp only at h
  split_ifs at h <;>
    obtain ⟨u, hu, rfl⟩ := mkEvidence_sources_mem _ _ _ _ _ _ h <;>
    exact ⟨u, List.mem_of_mem_take hu, rfl⟩

theorem evLangItems_mem (blocks : List PageBlock) (profile : CompanyProfile)
    (loc : Option String) (e : EvItem) (he : e ∈ evLangItems blocks profile loc) :
    e.proofType = "language_mismatch" ∧ e.confidence = (rq 7 10) ∧
    ∀ s ∈ e.sourceUrls, ∃ u ∈ evUrls blocks, s = normWs u := by
  unfold evLangItems at he
  rcases loc with _ | l
  · simp at he
  · dsimp only at he
    split_ifs at he <;>
      first
        | exact absurd he (List.not_mem_nil e)
        | (rw [List.mem_singleton] at he
           subst he
           refine ⟨rfl, rfl, ?_⟩
           intro s hs
           obtain ⟨u, hu, rfl⟩ := mkEvidence_sources_mem _ _ _ _ _ _ hs
           exact ⟨u, List.mem_of_mem_take hu, rfl⟩)

theorem evFragItems_mem (blocks : List PageBlock) (profile : CompanyProfile)
    (e : EvItem) (he : e ∈ evFragItems blocks profile) :
    e.proofType = "fragmented_content" ∧ e.confidence = (rq 3 5) ∧
    ∀ s ∈ e.sourceUrls, ∃ u ∈ evUrls blocks, s = normWs u := by
  unfold evFragItems at he
  dsimp only at he
  split_ifs at he with h1
  · rw [List.mem_singleton] at he
    subst he
    refine ⟨rfl, rfl, ?_⟩
    intro s hs
    obtain ⟨u, hu, rfl⟩ := mkEvidence_sources_mem _ _ _ _ _ _ hs
    exact ⟨u, List.mem_of_mem_take hu, rfl⟩
  · exact absurd he (List.not_mem_nil e)

theorem evLangItems_len (blocks : List PageBlock) (profile : CompanyProfile)
    (loc : Option String) : (evLangItems blocks profile loc).length ≤ 1 := by
  unfold evLangItems
  rcases loc with _ | l
  · simp
  · dsimp only
    split_ifs <;> simp

theorem evFragItems_len (blocks : List PageBlock) (profile : CompanyProfile) :
    (evFragItems blocks profile).length ≤ 1 := by
  unfold evFragItems
  dsimp only
  split_ifs <;> simp

theorem build_evidence_items_eq (blocks : List PageBlock)
    (profile : CompanyProfile) (loc : Option String) :
    build_evidence_items blocks profile loc =
      evPricingItem blocks profile :: evContactItem blocks profile ::
      evEntityItem blocks ::
        (evLangItems blocks profile loc ++ evFragItems blocks profile) := by
  unfold build_evidence_items
  have h4 := evLangItems_len blocks profile loc
  have h5 := evFragItems_len blocks profile
  rw [List.take_of_length_le (by
    simp only [List.length_append, List.length_cons, List.length_nil]
    omega)]
  simp

theorem build_evidence_items_sources (blocks : List PageBlock)
    (profile : CompanyProfile) (loc : Option String) (it : EvItem)
    (hit : it ∈ build_evidence_items blocks profile loc)
    (s : String) (hs : s ∈ it.sourceUrls) :
    ∃ u, (u ∈ evUrls blocks ∨ u ∈ profile.topPages) ∧ s = normWs u := by
  rw [build_evidence_items_eq] at hit
  rcases List.mem_cons.mp hit with rfl | hit
  · exact evPricingItem_sources blocks profile s hs
  rcases List.mem_cons.mp hit with rfl | hit
  · exact evContactItem_sources blocks profile s hs
  rcases List.mem_cons.mp hit with rfl | hit
  · obtain ⟨u, hu, h⟩ := evEntityItem_sources blocks s hs
    exact ⟨u, Or.inl hu, h⟩
  rcases List.mem_append.mp hit with h4 | h5
  · obtain ⟨u, hu, h⟩ := (evLangItems_mem blocks profile loc it h4).2.2 s hs
    exact ⟨u, Or.inl hu, h⟩
  · obtain ⟨u, hu, h⟩ := (evFragItems_mem blocks profile it h5).2.2 s hs
    exact ⟨u, Or.inl hu, h⟩

/-- C3 counterexample: with one fetched page whose navigation links to the
never-fetched `/team` URL and no pricing/contact signals, the no-pricing
and no-contact items cite `/team` — a URL that is not among the fetched
pages' URLs. -/
theorem c3_counterexample :
    ((build_evidence_layer soupNavTeam [pageHomeOnly] "example.com" (some "en")).evidence.map
      (fun e => e.sourceUrls)) =
      [["https://example.com/team"], ["https://example.com/team"],
       ["https://example.com/"]] ∧
    ((build_evidence_layer soupNavTeam [pageHomeOnly] "example.com" (some "en")).pages.map
      (fun p => p.url)) = ["https://example.com/"] ∧
    ([pageHomeOnly].map (fun p => p.url)) = ["https://example.com/"] ∧
    "https://example.com/team" ∉ ["https://example.com/"] := by
  decide

/-- C3 (amended): every evidence entry of `build_evidence_layer` carries at
most 3 source URLs and at most 3 snippets, its confidence lies in [0, 1],
and each source URL is the whitespace-normalisation of either a fetched
page URL or one of the profile's top internally-linked pages (the
no-pricing / no-contact fallbacks cite the latter). -/
theorem c3_evidence_bounds (ops : SoupOps) (pages : List SPage)
    (fb : String) (loc : Option String) (e : EvDict)
    (he : e ∈ (build_evidence_layer ops pages fb loc).evidence) :
    (∀ s ∈ e.sourceUrls, ∃ u,
       (u ∈ (build_evidence_layer ops pages fb loc).pages.map (fun p => p.url) ∨
        u ∈ (build_evidence_layer ops pages fb loc).companyProfile.topPages) ∧
       s = normWs u) ∧
    e.sourceUrls.length ≤ 3 ∧ e.snippets.length ≤ 3 ∧
    (0 : Rat) ≤ e.confidence ∧ e.confidence ≤ 1 := by
  unfold build_evidence_layer at he ⊢
  dsimp only at he ⊢
  obtain ⟨it, hit, rfl⟩ := List.mem_map.mp he
  refine ⟨?_, ?_, ?_, ?_, ?_⟩
  · intro s hs
    have hs' : s ∈ it.sourceUrls := List.mem_of_mem_take hs
    have h := build_evidence_items_sources _ _ _ it hit s hs'
    simpa [evUrls, extract_pages] using h
  · exact List.length_take_le _ _
  · exact List.length_take_le _ _
  · exact le_max_left 0 _
  · exact max_le zero_le_one (min_le_left _ _)

/-- Witness for `c3_evidence_bounds` at the concrete no-pricing item of the
`/team` scenario. -/
theorem c3_witness :
    noPricingTeamItem ∈
      (build_evidence_layer soupNavTeam [pageHomeOnly] "example.com" (some "en")).evidence ∧
    (∃ u, (u ∈ (build_evidence_layer soupNavTeam [pageHomeOnly] "example.com"
              (some "en")).pages.map (fun p => p.url) ∨
           u ∈ (build_evidence_layer soupNavTeam [pageHomeOnly] "example.com"
              (some "en")).companyProfile.topPages) ∧
       "https://example.com/team" = normWs u) ∧
    noPricingTeamItem.sourceUrls.length ≤ 3 ∧
    (0 : Rat) ≤ noPricingTeamItem.confidence ∧ noPricingTeamItem.confidence ≤ 1 :=
  ⟨by decide,
   (c3_evidence_bounds soupNavTeam [pageHomeOnly] "example.com" (some "en")
      noPricingTeamItem (by decide)).1 "https://example.com/team" (by decide),
   (c3_evidence_bounds soupNavTeam [pageHomeOnly] "example.com" (some "en")
      noPricingTeamItem (by decide)).2.1,
   (c3_evidence_bounds soupNavTeam [pageHomeOnly] "example.com" (some "en")
      noPricingTeamItem (by decide)).2.2.2.1,
   (c3_evidence_bounds soupNavTeam [pageHomeOnly] "example.com" (some "en")
      noPricingTeamItem (by decide)).2.2.2.2⟩

/-- C6 counterexample: on the empty page set with locale "en", only the
three paired rules emit an outcome — the language-mismatch and
fragmented-content rules emit nothing at all, not even a "not detected"
item. -/
theorem c6_counterexample :
    (build_evidence_items [] (build_company_profile [] "example.com")
        (some "en")).map (fun e => e.proofType) =
      ["no_pricing", "no_contact", "weak_entity_signals"] := by
  decide

/-- C6 (amended): the pricing, contact and entity rules each always emit
exactly one outcome (present- or absent-variant, with its fixed
confidence); the language-mismatch and fragmented-content rules emit an
item (confidence 0.7 / 0.6) only when their trigger condition holds and
are otherwise omitted. -/
theorem c6_rule_emission (blocks : List PageBlock) (profile : CompanyProfile)
    (loc : Option String) :
    ∃ e1 e2 e3 rest,
      build_evidence_items blocks profile loc = e1 :: e2 :: e3 :: rest ∧
      ((e1.proofType = "pricing_present" ∧
          (e1.confidence = (rq 3 4) ∨ e1.confidence = (rq 11 20))) ∨
       (e1.proofType = "no_pricing" ∧ e1.confidence = (rq 13 20))) ∧
      ((e2.proofType = "contact_present" ∧
          (e2.confidence = (rq 4 5) ∨ e2.confidence = (rq 3 5))) ∨
       (e2.proofType = "no_contact" ∧ e2.confidence = (rq 13 20))) ∧
      ((e3.proofType = "entity_signals_present" ∧ e3.confidence = (rq 4 5)) ∨
       (e3.proofType = "weak_entity_signals" ∧ e3.confidence = (rq 3 5))) ∧
      rest.length ≤ 2 ∧
      (∀ e ∈ rest,
        (e.proofType = "language_mismatch" ∧ e.confidence = (rq 7 10)) ∨
        (e.proofType = "fragmented_content" ∧ e.confidence = (rq 3 5))) := by
  refine ⟨_, _, _, _, build_evidence_items_eq blocks profile loc, ?_, ?_, ?_, ?_, ?_⟩
  · unfold evPricingItem
    dsimp only
    split_ifs <;>
      first
        | exact Or.inl ⟨rfl, Or.inl rfl⟩
        | exact Or.inl ⟨rfl, Or.inr rfl⟩
        | exact Or.inr ⟨rfl, rfl⟩
  · unfold evContactItem
    dsimp only
    split_ifs <;>
      first
        | exact Or.inl ⟨rfl, Or.inl rfl⟩
        | exact Or.inl ⟨rfl, Or.inr rfl⟩
        | exact Or.inr ⟨rfl, rfl⟩
  · unfold evEntityItem
    dsimp only
    split_ifs <;>
      first
        | exact Or.inl ⟨rfl, rfl⟩
        | exact Or.inr ⟨rfl, rfl⟩
  · have h4 := evLangItems_len blocks profile loc
    have h5 := evFragItems_len blocks profile
    simp only [List.length_append]
    omega
  · intro e he
    rcases List.mem_append.mp he with h4 | h5
    · exact Or.inl ⟨(evLangItems_mem blocks profile loc e h4).1,
        (evLangItems_mem blocks profile loc e h4).2.1⟩
    · exact Or.inr ⟨(evFragItems_mem blocks profile e h5).1,
        (evFragItems_mem blocks profile e h5).2.1⟩

/-- C7: with zero fetched pages, `build_evidence_layer` still returns a
fully-populated company profile — the fallback domain (or "this domain")
as entity name, the literal "not detected" for the offer summary and the
language, and empty lists for services, locations and top pages. -/
theorem c7_zero_pages_profile (ops : SoupOps) (fb : String)
    (loc : Option String) :
    (build_evidence_layer ops [] fb loc).companyProfile =
      { companyName := pyOrStr fb "this domain"
        primaryOfferSummary := "not detected"
        servicesDetected := []
        locationsDetected := []
        primaryLanguageDetected := "not detected"
        topPages := [] } := rfl

/-- C9: `build_evidence_layer` is a pure function of the page list, the
fallback domain and the locale: two calls on identical inputs return
identical evidence layers (profile, page blocks and evidence items in the
same order). -/
theorem c9_layer_deterministic (ops : SoupOps) (pages : List SPage)
    (fb : String) (loc : Option String) :
    build_evidence_layer ops pages fb loc = build_evidence_layer ops pages fb loc := rfl

theorem genFallbackElements_length (n : Nat) :
    (genFallbackElements n).length = n := by
  simp [genFallbackElements]

theorem statusCountPartition (xs : List DRElement)
    (hall : ∀ e ∈ xs, e.status = some "present" ∨ e.status = some "weak" ∨
      e.status = some "fragmented" ∨ e.status = some "missing") :
    (xs.filter (fun e => e.status = some "present")).length +
    (xs.filter (fun e =>
      e.status = some "weak" ∨ e.status = some "fragmented")).length +
    (xs.filter (fun e => e.status = some "missing")).length = xs.length := by
  induction xs with
  | nil => simp
  | cons x t ih =>
    have hx := hall x (by simp)
    have iht := ih (fun e he => hall e (List.mem_cons_of_mem x he))
    rcases hx with h | h | h | h
    · simp only [List.filter_cons]
      rw [if_pos (by simp [h]), if_neg (by simp [h]), if_neg (by simp [h])]
      simp only [List.length_cons]
      omega
    · simp only [List.filter_cons]
      rw [if_neg (by simp [h]), if_pos (by simp [h]), if_neg (by simp [h])]
      simp only [List.length_cons]
      omega
    · simp only [List.filter_cons]
      rw [if_neg (by simp [h]), if_pos (by simp [h]), if_neg (by simp [h])]
      simp only [List.length_cons]
      omega
    · simp only [List.filter_cons]
      rw [if_neg (by simp [h]), if_neg (by simp [h]), if_pos (by simp [h])]
      simp only [List.length_cons]
      omega

/-- C1 counterexample: with eight generator elements (all "missing") and a
generator score reporting {present 12, weak 0, missing 0, total 12}, the
array is padded to 12, the recount is {0, 0, 12, 12} — yet the stored
score is the generator's, not the recount: the disagreeing
generator-reported score is kept, not overridden. -/
theorem c1_counterexample :
    (decisionPostProcess elemsEight [] (some llmScoreWrong)).1.length = 12 ∧
    (decisionPostProcess elemsEight [] (some llmScoreWrong)).2 = llmScoreWrong ∧
    calcCoverageScore (decisionPostProcess elemsEight [] (some llmScoreWrong)).1 =
      { present := 0, weak := 0, missing := 12, total := 12 } ∧
    (decisionPostProcess elemsEight [] (some llmScoreWrong)).2 ≠
      calcCoverageScore (decisionPostProcess elemsEight [] (some llmScoreWrong)).1 := by
  decide

/-- C1 (amended): when the structural array has fewer than 12 entries,
post-processing pads it with generated "missing"-status fillers to exactly
12 when the generation output carries no `_fallback_decision_elements`
list (with a generator-supplied list the result is
`min 12 (len + fallback len)`, possibly short of 12); the recomputed tally
is stored only when the generator score is absent, reports total 0, or
reports a total different from the array length — a generator score whose
total equals the array length is kept verbatim even if its per-status
counts disagree with the recount; the stored total always equals 12, and
whenever every padded status is one of present/weak/fragmented/missing the
recomputed present+weak+missing counts sum to 12. -/
theorem c1_decision_postprocess (elements fallback : List DRElement)
    (llm : Option CoverageScore) (h : elements.length < 12) :
    (decisionPostProcess elements [] llm).1.length = 12 ∧
    (decisionPostProcess elements fallback llm).1.length =
      min 12 (elements.length +
        (if fallback = [] then 12 - elements.length else fallback.length)) ∧
    (decisionPostProcess elements [] llm).2.total = 12 ∧
    ((decisionPostProcess elements [] llm).2 =
      match llm with
      | none => calcCoverageScore (decisionPostProcess elements [] llm).1
      | some s =>
        if s.total = 0 ∨ s.total ≠ 12 then
          calcCoverageScore (decisionPostProcess elements [] llm).1
        else s) ∧
    ((∀ e ∈ (decisionPostProcess elements [] llm).1,
        e.status = some "present" ∨ e.status = some "weak" ∨
        e.status = some "fragmented" ∨ e.status = some "missing") →
      (calcCoverageScore (decisionPostProcess elements [] llm).1).present +
      (calcCoverageScore (decisionPostProcess elements [] llm).1).weak +
      (calcCoverageScore (decisionPostProcess elements [] llm).1).missing = 12) := by
  have hpadnil : (padDecisionElements elements []).length = 12 := by
    unfold padDecisionElements
    rw [if_pos h]
    simp only [eq_self_iff_true, if_true, List.length_append, List.length_take,
      genFallbackElements_length]
    omega
  have hpadded1 : (decisionPostProcess elements [] llm).1 = padDecisionElements elements [] := rfl
  refine ⟨?_, ?_, ?_, ?_, ?_⟩
  · rw [hpadded1, hpadnil]
  · show (padDecisionElements elements fallback).length = _
    unfold padDecisionElements
    rw [if_pos h]
    by_cases hfb : fallback = []
    · subst hfb
      simp only [eq_self_iff_true, if_true, List.length_append, List.length_take,
        genFallbackElements_length]
      omega
    · rw [if_neg hfb, if_neg hfb]
      simp only [List.length_append, List.length_take]
      omega
  · show (decisionPostProcess elements [] llm).2.total = 12
    unfold decisionPostProcess
    dsimp only
    rcases llm with _ | s
    · simp [calcCoverageScore, hpadnil]
    · dsimp only
      split_ifs with h1 h2
      · simp [calcCoverageScore, hpadnil]
      · simp [calcCoverageScore, hpadnil]
      · rw [hpadnil] at h2
        omega
  · rcases llm with _ | s
    · rfl
    · show (decisionPostProcess elements [] (some s)).2 = _
      unfold decisionPostProcess
      dsimp only
      rw [hpadnil]
      by_cases h1 : s.total = 0
      · rw [if_pos h1, if_pos (Or.inl h1)]
      · rw [if_neg h1]
        by_cases h2 : s.total = (12 : Int)
        · rw [if_neg (by omega), if_neg (by tauto)]
        · rw [if_pos (by omega), if_pos (by tauto)]
  · intro hall
    have hp := statusCountPartition (decisionPostProcess elements [] llm).1 hall
    simp only [calcCoverageScore]
    rw [hpadded1] at hp ⊢
    rw [hpadnil] at hp
    omega

/-- Witness for `c1_decision_postprocess` at the concrete eight-element
array and disagreeing generator score. -/
theorem c1_witness :
    elemsEight.length < 12 ∧
    (decisionPostProcess elemsEight [] (some llmScoreWrong)).1.length = 12 ∧
    (calcCoverageScore (decisionPostProcess elemsEight [] (some llmScoreWrong)).1).present +
    (calcCoverageScore (decisionPostProcess elemsEight [] (some llmScoreWrong)).1).weak +
    (calcCoverageScore (decisionPostProcess elemsEight [] (some llmScoreWrong)).1).missing = 12 :=
  ⟨by decide,
   (c1_decision_postprocess elemsEight [] (some llmScoreWrong) (by decide)).1,
   (c1_decision_postprocess elemsEight [] (some llmScoreWrong) (by decide)).2.2.2.2
     (by decide)⟩

theorem qaValidateAndFix_error_payload (f : String → String) (doc d : Jv)
    (h : qaValidateAndFix f doc = Except.error d) : d = doc := by
  unfold qaValidateAndFix at h
  cases doc with
  | obj kvs =>
    dsimp only at h
    split at h
    · injection h with h2
      exact h2.symm
    · cases h
  | null => cases h
  | bool b => cases h
  | num n => cases h
  | str s => cases h
  | arr xs => cases h

/-- C4: the QA gate never aborts the pipeline, and whenever the QA pass
signals an internal error the caught exception leaves the audit document
exactly as it was — the only raising expression (the
`appendix["sampled_urls"][0]` fallback of the company-name computation)
runs before any mutation of the document. -/
theorem c4_qa_exception_passthrough (f : String → String) (doc : Jv)
    (h : (qaValidateAndFix f doc).isOk = false) :
    run_qa_gate f doc = doc := by
  unfold run_qa_gate
  cases hq : qaValidateAndFix f doc with
  | ok d => rw [hq] at h; simp [Except.isOk, Except.toBool] at h
  | error d => exact qaValidateAndFix_error_payload f doc d hq

/-- Witness for `c4_qa_exception_passthrough` at `qaRaiseDoc`. -/
theorem c4_witness :
    (qaValidateAndFix (fun s => s) qaRaiseDoc).isOk = false ∧
    run_qa_gate (fun s => s) qaRaiseDoc = qaRaiseDoc :=
  ⟨rfl, c4_qa_exception_passthrough (fun s => s) qaRaiseDoc rfl⟩

end Sitee
